import Mathlib

/-!
# Chatlyb: the conversation message pipeline

A shallow embedding of `backend/routes/conversations.js` (the handler behind
`POST /:id/messages`) together with the JavaScript primitives it relies on.

Conventions of the embedding
* A JavaScript string is a `List Char`; literals are written `"...".toList`.
* Identifiers (tenant, conversation, message) are opaque and modelled by `Nat`.
* The relational store behind Prisma is an explicit `Db` value threaded
  through the handler; the handler returns the new store and the HTTP answer.
* Everything the handler reads from outside the store (the environment
  variable, the clock, `Math.random()`, `JSON.parse`, the remote HTTP call) is a
  field of `Env`.
* The store operations succeed, except that `create` rejects a content that is
  not a text.
-/

namespace Chatlyb

/-! ## JavaScript strings -/

/-- A JavaScript string, as the list of its characters. -/
abbrev JsString := List Char

/-- The method `String.prototype.startsWith(q)` with the default position 0. -/
def startsWith (s q : JsString) : Bool :=
  match q, s with
  | [], _ => true
  | _ :: _, [] => false
  | c :: q', d :: s' => c == d && startsWith s' q'

/-- The method `String.prototype.includes(q)`: `q` occurs in `s` at some position. -/
def includes (s q : JsString) : Bool :=
  match s with
  | [] => startsWith [] q
  | c :: s' => startsWith (c :: s') q || includes s' q

/-- The method `String.prototype.toLowerCase()`.  The mapping is the one of the
basic Latin letters; the only other code points whose lower-case form holds a
basic Latin letter are U+212A (to `k`) and U+0130 (to `i` followed by U+0307),
and neither can complete one of the interrogative words tested below. -/
def toLowerCase (s : JsString) : JsString :=
  s.map Char.toLower

/-- The method `Array.prototype.join(sep)` on an array of strings. -/
def join (parts : List JsString) (sep : JsString) : JsString :=
  match parts with
  | [] => []
  | [p] => p
  | p :: q :: rest => p ++ sep ++ join (q :: rest) sep

/-! ## JavaScript values -/

/-- A JavaScript number other than NaN and the infinities: the fraction
`num / den`, with `den` positive. -/
structure JsNumber where
  num : Int
  den : Nat
deriving DecidableEq

/-- The integer `n` as a JavaScript number. -/
def JsNumber.ofNat (n : Nat) : JsNumber := ⟨n, 1⟩

/-- A JavaScript value as it comes out of `JSON.parse`, plus `undefined`. -/
inductive JsValue where
  | undefined
  | null
  | bool (b : Bool)
  | number (n : JsNumber)
  | string (s : JsString)
  | array (items : List JsValue)
  | object (fields : List (JsString × JsValue))

/-- Truthiness (the abstract operation `ToBoolean`). -/
def JsValue.truthy : JsValue → Bool
  | .undefined => false
  | .null => false
  | .bool b => b
  | .number n => n.num != 0
  | .string s => !s.isEmpty
  | .array _ => true
  | .object _ => true

/-- The operator `a || b`. -/
def JsValue.or (a b : JsValue) : JsValue :=
  if a.truthy then a else b

/-- Lookup of an own property in the fields of an object. -/
def lookupField (fields : List (JsString × JsValue)) (key : JsString) : JsValue :=
  match fields with
  | [] => .undefined
  | (k, v) :: rest => if k == key then v else lookupField rest key

/-- The read `v.key` of a property named by an identifier on a value that is
neither `null` nor `undefined`: an own field of an object, the `length` of an
array or of a string, and `undefined` for everything else.  The length of a
string is its number of characters, which is the JavaScript length (a count of
UTF-16 units) for strings of the Basic Multilingual Plane. -/
def JsValue.member (v : JsValue) (key : JsString) : JsValue :=
  match v with
  | .object fields => lookupField fields key
  | .array items => if key == "length".toList then .number (JsNumber.ofNat items.length) else .undefined
  | .string s => if key == "length".toList then .number (JsNumber.ofNat s.length) else .undefined
  | _ => .undefined

/-- The read `v.key`, which throws a `TypeError` (here `none`) when `v` is
`null` or `undefined`. -/
def JsValue.get (v : JsValue) (key : JsString) : Option JsValue :=
  match v with
  | .undefined => none
  | .null => none
  | _ => some (v.member key)

/-- The read `v?.key`: `undefined` when `v` is `null` or `undefined`. -/
def JsValue.optGet (v : JsValue) (key : JsString) : JsValue :=
  match v with
  | .undefined => .undefined
  | .null => .undefined
  | _ => v.member key

/-- A computed index: `none` stands for NaN, `some z` for the integer `z`. -/
abbrev JsIndex := Option Int

/-- The property key a computed index is converted to (`ToString` of an
integer-valued number or of NaN): the decimal digits, which is what JavaScript
writes for integers below 10^21 in magnitude. -/
def JsIndex.key : JsIndex → JsString
  | none => "NaN".toList
  | some z => (toString z).toList

/-- The read `v[i]` with a computed index, on a value that is neither `null`
nor `undefined`: the element of an array, the one-character string of a
string, the field named by the converted index of an object, and `undefined`
when there is none.  A string is indexed by character, which is the JavaScript
index (by UTF-16 unit) for strings of the Basic Multilingual Plane. -/
def JsValue.index (v : JsValue) (i : JsIndex) : JsValue :=
  match v, i with
  | .array items, some (Int.ofNat n) => (items.get? n).getD .undefined
  | .string s, some (Int.ofNat n) => ((s.get? n).map fun c => JsValue.string [c]).getD .undefined
  | .object fields, i => lookupField fields i.key
  | _, _ => .undefined

/-- The read `v[0]`, which throws (here `none`) when `v` is `null` or
`undefined`. -/
def JsValue.first (v : JsValue) : Option JsValue :=
  match v with
  | .undefined => none
  | .null => none
  | _ => some (v.index (some 0))

/-- The abstract operation `ToNumber`, with `none` for NaN.  The conversion of
strings, arrays and objects is the parameter `coerce`. -/
def JsValue.toNumber (coerce : JsValue → Option JsNumber) : JsValue → Option JsNumber
  | .undefined => none
  | .null => some (JsNumber.ofNat 0)
  | .bool b => some (JsNumber.ofNat (if b then 1 else 0))
  | .number n => some n
  | v => coerce v

/-! ## The store -/

/-- A row of the `conversation` table. -/
structure Conversation where
  id : Nat
  tenantId : Nat
  updatedAt : Nat
deriving DecidableEq

/-- A row of the `message` table. -/
structure Message where
  id : Nat
  content : JsString
  sender : JsString
  status : JsString
  conversationId : Nat
  createdAt : Nat
deriving DecidableEq

/-- A row of the `knowledgeBase` table. -/
structure KnowledgeEntry where
  id : Nat
  tenantId : Nat
  type : JsString
  question : Option JsString
  answer : Option JsString
  content : Option JsString
  updatedAt : Nat
deriving DecidableEq

/-- A row of the `widget` table; `aiSettings` is the serialised JSON text. -/
structure Widget where
  tenantId : Nat
  color : JsString
  position : JsString
  welcomeText : JsString
  logoUrl : Option JsString
  aiSettings : Option JsString
deriving DecidableEq

/-- The store: the four tables and the source of fresh row ids. -/
structure Db where
  conversations : List Conversation
  messages : List Message
  knowledgeBase : List KnowledgeEntry
  widgets : List Widget
  nextId : Nat
deriving DecidableEq

/-- Modelled from the spec: the default of the column `Message.status`; the
Prisma schema is not among the sources and the handler never sets a status. -/
def defaultStatus : JsString := "sent".toList

/-- The query `prisma.conversation.findFirst({ where: { id, tenantId } })`. -/
def findConversation (db : Db) (id tenantId : Nat) : Option Conversation :=
  db.conversations.find? fun c => c.id == id && c.tenantId == tenantId

/-- The query `prisma.widget.findUnique({ where: { tenantId } })`. -/
def findWidget (db : Db) (tenantId : Nat) : Option Widget :=
  db.widgets.find? fun w => w.tenantId == tenantId

/-- The call `prisma.message.create({ data: { content, sender, conversationId } })`
for a text `content`: the row is appended and returned. -/
def createMessage (db : Db) (now : Nat) (content sender : JsString) (conversationId : Nat) :
    Db × Message :=
  let m : Message :=
    { id := db.nextId, content := content, sender := sender, status := defaultStatus,
      conversationId := conversationId, createdAt := now }
  ({ db with messages := db.messages ++ [m], nextId := db.nextId + 1 }, m)

/-- Modelled from the spec: `Message.content` is a text column (the Prisma
schema is not among the sources), so `prisma.message.create` rejects every
`content` that is not a string; `none` stands for the rejection. -/
def createMessageChecked (db : Db) (now : Nat) (content : JsValue) (sender : JsString)
    (conversationId : Nat) : Option (Db × Message) :=
  match content with
  | .string s => some (createMessage db now s sender conversationId)
  | _ => none

/-- The query `prisma.knowledgeBase.findMany` of the handler: the entries of the
tenant, most recently updated first, at most 20 of them. -/
def findKnowledgeEntries (db : Db) (tenantId : Nat) : List KnowledgeEntry :=
  ((db.knowledgeBase.filter fun e => e.tenantId == tenantId).insertionSort
    fun a b => b.updatedAt ≤ a.updatedAt).take 20

/-- The query `prisma.message.findMany` of the handler: the messages of the
conversation in ascending order of `createdAt`, at most 10 of them. -/
def findPreviousMessages (db : Db) (conversationId : Nat) : List Message :=
  ((db.messages.filter fun m => m.conversationId == conversationId).insertionSort
    fun a b => a.createdAt ≤ b.createdAt).take 10

/-- The call `prisma.conversation.update({ where: { id }, data: { updatedAt } })`. -/
def touchConversation (db : Db) (id now : Nat) : Db :=
  { db with conversations := db.conversations.map fun c =>
      if c.id == id then { c with updatedAt := now } else c }

/-! ## The outside world of the handler -/

/-- One turn of the chat history sent to the model. -/
structure ChatTurn where
  role : JsString
  content : JsString
deriving DecidableEq

/-- The body and the credential of the request posted to the remote model. -/
structure ChatRequest where
  model : JsValue
  messages : List ChatTurn
  temperature : JsValue
  max_tokens : JsValue
  authorization : JsString

/-- Everything the handler reads from outside the store.
* `OPENAI_API_KEY` is `process.env.OPENAI_API_KEY` (`none` when unset);
* `now` is the reading of the clock during the call;
* `Math.random()` returns `randomNum / randomDen`, a number in `[0, 1)` when
  `randomNum < randomDen`;
* `jsonParse` is `JSON.parse`, with `none` when it throws;
* `axiosPost` is the remote call, with `none` when it rejects (network error or
  a status outside 2xx) and `some data` for the body `response.data`;
* `coerce` is the number conversion of strings, arrays and objects. -/
structure Env where
  OPENAI_API_KEY : Option JsString
  now : Nat
  randomNum : Nat
  randomDen : Nat
  jsonParse : JsString → Option JsValue
  axiosPost : ChatRequest → Option JsValue
  coerce : JsValue → Option JsNumber

/-- Whether `process.env.OPENAI_API_KEY` is truthy: set and not empty. -/
def Env.hasProvider (env : Env) : Bool :=
  match env.OPENAI_API_KEY with
  | none => false
  | some key => !key.isEmpty

/-- The index `Math.floor(Math.random() * len)`; NaN (here `none`) when `len`
is NaN. -/
def Env.randomIndex (env : Env) (len : Option JsNumber) : JsIndex :=
  len.map fun n => Int.fdiv ((env.randomNum : Int) * n.num) ((env.randomDen : Int) * (n.den : Int))

/-! ## The handler of `POST /:id/messages` -/

/-- The AI settings of the tenant: `null` unless the tenant has a widget whose
`aiSettings` text is truthy and parses. -/
def loadAiSettings (env : Env) (widget : Option Widget) : JsValue :=
  match widget with
  | none => .null
  | some w =>
    match w.aiSettings with
    | none => .null
    | some text => if text.isEmpty then .null else (env.jsonParse text).getD .null

/-- The text a template literal substitutes for a nullable string. -/
def templateText : Option JsString → JsString
  | none => "null".toList
  | some s => s

/-- The rendering of one knowledge entry inside `knowledgeEntries.map`; `none`
is the value `null` of an entry without content. -/
def renderEntry (entry : KnowledgeEntry) : Option JsString :=
  if entry.type == "qa".toList then
    some ("Question: ".toList ++ templateText entry.question ++ "\nAnswer: ".toList ++
      templateText entry.answer)
  else
    entry.content

/-- The condition `!aiSettings || aiSettings.knowledgeBaseEnabled !== false`. -/
def knowledgeBaseAllowed (aiSettings : JsValue) : Bool :=
  !aiSettings.truthy ||
    (match aiSettings.member "knowledgeBaseEnabled".toList with
     | .bool false => false
     | _ => true)

/-- The context text built from the knowledge entries (`join` writes a `null`
element as the empty string). -/
def buildContext (knowledgeEntries : List KnowledgeEntry) (aiSettings : JsValue) : JsString :=
  if knowledgeEntries.length > 0 && knowledgeBaseAllowed aiSettings then
    join (knowledgeEntries.map fun entry => (renderEntry entry).getD []) "\n\n".toList
  else
    []

/-- The context the handler computes for tenant `tenantId` in store `db`: it
loads the settings of the tenant and the entries of the tenant, then builds
the context from them. -/
def handlerContext (env : Env) (db : Db) (tenantId : Nat) : JsString :=
  let aiSettings := loadAiSettings env (findWidget db tenantId)
  let knowledgeEntries := findKnowledgeEntries db tenantId
  buildContext knowledgeEntries aiSettings

/-- The history: the loaded messages mapped to turns, then the new content. -/
def conversationHistory (previousMessages : List Message) (content : JsString) : List ChatTurn :=
  (previousMessages.map fun msg =>
    { role := if msg.sender == "user".toList then "user".toList else "assistant".toList,
      content := msg.content : ChatTurn }) ++
  [{ role := "user".toList, content := content }]

/-- The request posted to `https://api.openai.com/v1/chat/completions`. -/
def chatRequest (key : JsString) (aiSettings : JsValue) (context : JsString)
    (history : List ChatTurn) : ChatRequest :=
  { model := (aiSettings.optGet "aiModel".toList).or (.string "gpt-3.5-turbo".toList)
    messages :=
      { role := "system".toList
        content := "You are a helpful customer support AI assistant. Use the following knowledge base information to answer the user's questions:\n\n".toList ++ context } :: history
    temperature := (aiSettings.optGet "temperature".toList).or (.number ⟨7, 10⟩)
    max_tokens := (aiSettings.optGet "maxTokens".toList).or (.number (JsNumber.ofNat 1000))
    authorization := "Bearer ".toList ++ key }

/-- The read `response.data.choices[0].message.content`; `none` when it throws. -/
def readCompletion (data : JsValue) : Option JsValue :=
  (data.get "choices".toList).bind fun choices =>
    choices.first.bind fun choice =>
      (choice.get "message".toList).bind fun message =>
        message.get "content".toList

/-- The interrogative words of the rule-based responder. -/
def questions : List JsString :=
  ["what".toList, "how".toList, "why".toList, "when".toList, "where".toList, "who".toList,
   "can".toList, "could".toList, "would".toList, "will".toList]

/-- The reply to a content that includes "help". -/
def helpPhrase : JsString :=
  "I'd be happy to help! What specific assistance do you need today?".toList

/-- The reply to a content that includes "thank". -/
def thankPhrase : JsString :=
  "You're welcome! Is there anything else I can help you with?".toList

/-- The opening of the reply to a question. -/
def questionOpening : JsString :=
  "That's a good question. Based on the information I have, ".toList

/-- The end of the reply to a question when the context is truthy. -/
def insightsSentence : JsString :=
  "I can provide some insights from our knowledge base.".toList

/-- The end of the reply to a question when the context is empty. -/
def noInformationSentence : JsString :=
  "I don't have specific information about that in my knowledge base yet.".toList

/-- The reply to a content that starts with an interrogative word. -/
def questionPhrase (context : JsString) : JsString :=
  questionOpening ++ (if !context.isEmpty then insightsSentence else noInformationSentence)

/-- The reply to every other content. -/
def genericPhrase : JsString :=
  "I understand. Let me know if you have any specific questions I can help with.".toList

/-- The test `questions.some(q => content.toLowerCase().startsWith(q))`. -/
def startsWithQuestion (content : JsString) : Bool :=
  questions.any fun q => startsWith (toLowerCase content) q

/-- The `else` branch of the handler: the reply when no AI API is available. -/
def simpleResponse (content context : JsString) : JsString :=
  if includes content "help".toList then helpPhrase
  else if includes content "thank".toList then thankPhrase
  else if startsWithQuestion content then questionPhrase context
  else genericPhrase

/-- The body of the `try` block: the value assigned to `aiResponse`, or `none`
when the block throws. -/
def tryResponse (env : Env) (aiSettings : JsValue) (context content : JsString)
    (previousMessages : List Message) : Option JsValue :=
  let history := conversationHistory previousMessages content
  if env.hasProvider then
    (env.axiosPost (chatRequest (env.OPENAI_API_KEY.getD []) aiSettings context history)).bind
      readCompletion
  else
    some (.string (simpleResponse content context))

/-- The two built-in fallback phrases of the `catch` block. -/
def builtinFallbacks : List JsString :=
  ["I'm sorry, I couldn't process that request right now.".toList,
   "It seems I'm having trouble connecting to my knowledge base. Could you try again?".toList]

/-- The list `aiSettings?.defaultResponses || [ ... ]` of the `catch` block. -/
def fallbacksOf (aiSettings : JsValue) : JsValue :=
  (aiSettings.optGet "defaultResponses".toList).or (.array (builtinFallbacks.map .string))

/-- The `catch` block: `fallbacks[Math.floor(Math.random() * fallbacks.length)]`. -/
def catchResponse (env : Env) (aiSettings : JsValue) : JsValue :=
  let fallbacks := fallbacksOf aiSettings
  fallbacks.index (env.randomIndex ((fallbacks.member "length".toList).toNumber env.coerce))

/-- The value of `aiResponse` after the `try`/`catch` statement.  The value the
variable is initialised with is never read: the `try` block assigns on each of
its paths that does not throw, and the `catch` block assigns. -/
def aiResponse (env : Env) (aiSettings : JsValue) (context content : JsString)
    (previousMessages : List Message) : JsValue :=
  match tryResponse env aiSettings context content previousMessages with
  | some reply => reply
  | none => catchResponse env aiSettings

/-- The answer of the handler: status, `message` and the two created rows. -/
structure PostMessageResponse where
  status : Nat
  message : JsString
  data : Option (Message × Message)
deriving DecidableEq

/-- The answer of the outer `catch` block. -/
def errorAddingMessage : PostMessageResponse :=
  { status := 500, message := "Error adding message".toList, data := none }

/-- The handler `router.post('/:id/messages')` for an authenticated caller of
tenant `tenantId`, the path parameter `id` and the body field `content`: the
store after the call and the answer.  A rejected `create` is caught by the
outer `catch` block, which answers 500 and leaves the writes made so far. -/
def postMessage (env : Env) (db : Db) (tenantId id : Nat) (content : JsValue) :
    Db × PostMessageResponse :=
  match findConversation db id tenantId with
  | none => (db, { status := 404, message := "Conversation not found".toList, data := none })
  | some _ =>
    match content, createMessageChecked db env.now content "user".toList id with
    | .string text, some (db1, userMessage) =>
      let aiSettings := loadAiSettings env (findWidget db1 tenantId)
      let context := handlerContext env db1 tenantId
      let previousMessages := findPreviousMessages db1 id
      let reply := aiResponse env aiSettings context text previousMessages
      match createMessageChecked db1 env.now reply "bot".toList id with
      | some (db2, botMessage) =>
        (touchConversation db2 id env.now,
          { status := 201, message := "Messages added successfully".toList,
            data := some (userMessage, botMessage) })
      | none => (db1, errorAddingMessage)
    | _, _ => (db, errorAddingMessage)

/-- The history the handler builds for the text `text` sent to conversation
`id`: the messages it loads after it has stored the visitor message, mapped
to turns, then the new content. -/
def handlerHistory (env : Env) (db : Db) (id : Nat) (text : JsString) : List ChatTurn :=
  let db1 := (createMessage db env.now text "user".toList id).1
  conversationHistory (findPreviousMessages db1 id) text

/-- The request the handler posts to the remote model for the text `text` sent
by tenant `tenantId` to conversation `id`. -/
def handlerRequest (env : Env) (db : Db) (tenantId id : Nat) (text : JsString) : ChatRequest :=
  chatRequest (env.OPENAI_API_KEY.getD []) (loadAiSettings env (findWidget db tenantId))
    (handlerContext env db tenantId) (handlerHistory env db id text)

/-- The fixed opening of the system message of the request. -/
def systemPreamble : JsString :=
  "You are a helpful customer support AI assistant. Use the following knowledge base information to answer the user's questions:\n\n".toList

/-! ## The handler of `PATCH /messages/:id/status` -/

/-- The statuses the route accepts. -/
def validStatuses : List JsString :=
  ["sent".toList, "delivered".toList, "seen".toList]

/-- The call `prisma.message.update({ where: { id }, data: { status } })`: the
row with this id gets the status and is returned; `none` when there is no such
row (the call throws). -/
def updateMessageStatus (db : Db) (id : Nat) (status : JsString) : Option (Db × Message) :=
  match db.messages.find? fun m => m.id == id with
  | none => none
  | some m =>
    some ({ db with messages := db.messages.map fun x =>
              if x.id == id then { x with status := status } else x },
          { m with status := status })

/-- The answer of the status route. -/
structure StatusResponse where
  status : Nat
  message : JsString
  data : Option Message
deriving DecidableEq

/-- The handler `router.patch('/messages/:id/status')` for an authenticated
caller of tenant `tenantId`, the path parameter `id` and the body field
`status`.  The test `['sent', 'delivered', 'seen'].includes(status)` is strict
equality with one of the three strings, so it fails on every value that is not
a string.  The handler does not read the tenant of the caller. -/
def patchMessageStatus (db : Db) (_tenantId id : Nat) (status : JsValue) :
    Db × StatusResponse :=
  match status with
  | .string s =>
    if validStatuses.contains s then
      match updateMessageStatus db id s with
      | some (db1, updatedMessage) =>
        (db1, { status := 200, message := "Message status updated".toList,
                data := some updatedMessage })
      | none =>
        (db, { status := 500, message := "Error updating message status".toList, data := none })
    else
      (db, { status := 400,
             message := "Invalid status. Must be sent, delivered, or seen.".toList, data := none })
  | _ =>
    (db, { status := 400,
           message := "Invalid status. Must be sent, delivered, or seen.".toList, data := none })

/-! ## The realtime fanout (`io.on('connection')` in `index.js`) -/

/-- What the server emits to a socket: the event name with its payload. -/
inductive Emitted where
  | messageNew (message : Message)
  | messageUpdate (messageId : Nat) (status : JsString)
deriving DecidableEq

/-- One delivery to a socket: the room the server emitted to and what it
emitted. -/
structure Delivery where
  room : Nat
  emitted : Emitted
deriving DecidableEq

/-- A connected socket: its id, the rooms it is in and the log of what was
delivered to it since it connected.  Room names and socket ids share one name
space (both are strings in the source). -/
structure Socket where
  id : Nat
  rooms : List Nat
  received : List Delivery
deriving DecidableEq

/-- The state of the socket server: the connected sockets. -/
abbrev Server := List Socket

/-- What reaches the server from the clients. -/
inductive SocketEvent where
  | connection (socketId : Nat)
  | joinTenant (socketId tenantId : Nat)
  | messageNew (socketId tenantId : Nat) (message : Message)
  | messageUpdate (socketId tenantId messageId : Nat) (status : JsString)
  | disconnect (socketId : Nat)
deriving DecidableEq

/-- Whether a socket with this id is connected. -/
def isConnected (server : Server) (socketId : Nat) : Bool :=
  server.any fun s => s.id == socketId

/-- A new connection.  In socket.io a socket starts in the room named by its
own id. -/
def connect (server : Server) (socketId : Nat) : Server :=
  if isConnected server socketId then server
  else server ++ [{ id := socketId, rooms := [socketId], received := [] }]

/-- The call `socket.join(tenantId)`. -/
def joinRoom (server : Server) (socketId tenantId : Nat) : Server :=
  server.map fun s =>
    if s.id == socketId && !s.rooms.contains tenantId then
      { s with rooms := s.rooms ++ [tenantId] }
    else s

/-- The call `io.to(room).emit(...)`: the sockets that are in the room get the
delivery. -/
def emitTo (server : Server) (room : Nat) (emitted : Emitted) : Server :=
  server.map fun s =>
    if s.rooms.contains room then
      { s with received := s.received ++ [{ room := room, emitted := emitted }] }
    else s

/-- One event handled by the server.  The three listeners are registered on a
connected socket, so an event named after a socket that is not connected has
no effect; a socket that disconnects leaves the server and all its rooms. -/
def step (server : Server) (event : SocketEvent) : Server :=
  match event with
  | .connection socketId => connect server socketId
  | .joinTenant socketId tenantId => joinRoom server socketId tenantId
  | .messageNew socketId tenantId message =>
    if isConnected server socketId then emitTo server tenantId (.messageNew message)
    else server
  | .messageUpdate socketId tenantId messageId status =>
    if isConnected server socketId then emitTo server tenantId (.messageUpdate messageId status)
    else server
  | .disconnect socketId => server.filter fun s => s.id != socketId

/-- The server after a sequence of events. -/
def run (server : Server) (events : List SocketEvent) : Server :=
  events.foldl step server

/-! ## The knowledge-base routes (`routes/knowledgeBase.js`) -/

/-- The fields the knowledge-base routes read from the request body;
`undefined` stands for a field the body does not have. -/
structure EntryBody where
  type : JsValue
  question : JsValue
  answer : JsValue
  content : JsValue

/-- The answer of a knowledge-base route. -/
structure EntryResponse where
  status : Nat
  message : JsString
  data : Option KnowledgeEntry
deriving DecidableEq

/-- The test `['text', 'qa'].includes(type)`: strict equality with one of the
two strings. -/
def isEntryType (type : JsValue) : Bool :=
  match type with
  | .string s => s == "text".toList || s == "qa".toList
  | _ => false

/-- The test `type === 'qa'`. -/
def isQa (type : JsValue) : Bool :=
  match type with
  | .string s => s == "qa".toList
  | _ => false

/-- The test `type === 'text'`. -/
def isText (type : JsValue) : Bool :=
  match type with
  | .string s => s == "text".toList
  | _ => false

/-- Modelled from the spec: `question`, `answer` and `content` are nullable
text columns (the Prisma schema is not among the sources).  The value a column
gets from a field of `data`: `undefined` keeps the old value `old`, `null`
stores null, a string stores the string; every other value is rejected, and
`none` stands for the rejection. -/
def columnValue (old : Option JsString) (value : JsValue) : Option (Option JsString) :=
  match value with
  | .undefined => some old
  | .null => some none
  | .string s => some (some s)
  | _ => none

/-- The answer of the `catch` block of a knowledge-base route. -/
def entryError (message : JsString) : EntryResponse :=
  { status := 500, message := message, data := none }

/-- The handler `router.post('/')` of the knowledge base for an authenticated
caller of tenant `tenantId`; `now` is the reading of the clock. -/
def postKnowledgeEntry (db : Db) (now tenantId : Nat) (body : EntryBody) : Db × EntryResponse :=
  if !body.type.truthy || !isEntryType body.type then
    (db, { status := 400, message := "Invalid type. Must be \"text\" or \"qa\".".toList,
           data := none })
  else if isQa body.type && (!body.question.truthy || !body.answer.truthy) then
    (db, { status := 400, message := "Question and answer are required for QA type".toList,
           data := none })
  else if isText body.type && !body.content.truthy then
    (db, { status := 400, message := "Content is required for text type".toList, data := none })
  else
    match body.type,
      columnValue none (if isQa body.type then body.question else .null),
      columnValue none (if isQa body.type then body.answer else .null),
      columnValue none (if isText body.type then body.content else .null) with
    | .string type, some question, some answer, some content =>
      let newEntry : KnowledgeEntry :=
        { id := db.nextId, tenantId := tenantId, type := type, question := question,
          answer := answer, content := content, updatedAt := now }
      ({ db with knowledgeBase := db.knowledgeBase ++ [newEntry], nextId := db.nextId + 1 },
        { status := 201, message := "Knowledge base entry created successfully".toList,
          data := some newEntry })
    | _, _, _, _ => (db, entryError "Error creating knowledge base entry".toList)

/-- The query `prisma.knowledgeBase.findFirst({ where: { id, tenantId } })`. -/
def findEntry (db : Db) (id tenantId : Nat) : Option KnowledgeEntry :=
  db.knowledgeBase.find? fun e => e.id == id && e.tenantId == tenantId

/-- The handler `router.put('/:id')` of the knowledge base.  The stored type is
`type || entry.type`, while the three variant fields are chosen by the `type`
of the request.  Modelled from the spec: the update time of the row advances
to the time of the edit (the column `updatedAt` is maintained by the schema,
which is not among the sources). -/
def putKnowledgeEntry (db : Db) (now tenantId id : Nat) (body : EntryBody) :
    Db × EntryResponse :=
  match findEntry db id tenantId with
  | none =>
    (db, { status := 404, message := "Knowledge base entry not found".toList, data := none })
  | some entry =>
    if body.type.truthy && !isEntryType body.type then
      (db, { status := 400, message := "Invalid type. Must be \"text\" or \"qa\".".toList,
             data := none })
    else
      match body.type.or (.string entry.type),
        columnValue entry.question (if isQa body.type then body.question else .null),
        columnValue entry.answer (if isQa body.type then body.answer else .null),
        columnValue entry.content (if isText body.type then body.content else .null) with
      | .string type, some question, some answer, some content =>
        let update := fun (e : KnowledgeEntry) =>
          { e with type := type, question := question, answer := answer, content := content,
                   updatedAt := now }
        ({ db with knowledgeBase := db.knowledgeBase.map fun e =>
              if e.id == id then update e else e },
          { status := 200, message := "Knowledge base entry updated successfully".toList,
            data := some (update entry) })
      | _, _, _, _ => (db, entryError "Error updating knowledge base entry".toList)

/-- The handler `router.delete('/:id')` of the knowledge base. -/
def deleteKnowledgeEntry (db : Db) (tenantId id : Nat) : Db × EntryResponse :=
  match findEntry db id tenantId with
  | none =>
    (db, { status := 404, message := "Knowledge base entry not found".toList, data := none })
  | some _ =>
    ({ db with knowledgeBase := db.knowledgeBase.filter fun e => e.id != id },
      { status := 200, message := "Knowledge base entry deleted successfully".toList,
        data := none })

/-! ## Authentication (`middlewares/auth.js`, `routes/auth.js`) -/

/-- A row of the `user` table; `password` is the stored hash. -/
structure User where
  id : Nat
  email : JsString
  password : JsString
  companyName : Option JsString
  tenantId : Nat
deriving DecidableEq

/-- The cryptographic libraries of the authentication code.
* `jwtVerify` is `jwt.verify(token, process.env.JWT_SECRET)` followed by the
  read of `decoded.id`, with `none` when the call throws;
* `jwtSign` is `jwt.sign` on the payload built from a user;
* `bcryptCompare` is `bcrypt.compare(password, hash)` on two strings. -/
structure AuthEnv where
  jwtVerify : JsString → Option Nat
  jwtSign : User → JsString
  bcryptCompare : JsString → JsString → Bool

/-- What `protect` reads from a request: the header `authorization` and the
cookie `token`, each `none` when absent. -/
structure AuthRequest where
  authorization : Option JsString
  cookieToken : Option JsString
deriving DecidableEq

/-- The method `String.prototype.split(sep)` for a separator of one
character. -/
def splitOn (s : JsString) (sep : Char) : List JsString :=
  match s with
  | [] => [[]]
  | c :: rest =>
    if c == sep then [] :: splitOn rest sep
    else
      match splitOn rest sep with
      | [] => [[c]]
      | piece :: pieces => (c :: piece) :: pieces

/-- The variable `token` of `protect` after the `if`/`else if` statement;
`none` is `undefined`. -/
def extractToken (req : AuthRequest) : Option JsString :=
  match req.authorization with
  | some header =>
    if !header.isEmpty && startsWith header "Bearer".toList then
      (splitOn header ' ').get? 1
    else
      match req.cookieToken with
      | some token => if !token.isEmpty then some token else none
      | none => none
  | none =>
    match req.cookieToken with
    | some token => if !token.isEmpty then some token else none
    | none => none

/-- The outcome of `protect`: an answer sent by the middleware itself, or the
call of `next()` with the user put on the request. -/
inductive ProtectResult where
  | rejected (status : Nat) (message : JsString)
  | next (user : User)
deriving DecidableEq

/-- The query `prisma.user.findUnique({ where: { id } })`. -/
def findUserById (users : List User) (id : Nat) : Option User :=
  users.find? fun u => u.id == id

/-- The middleware `protect`. -/
def protect (auth : AuthEnv) (users : List User) (req : AuthRequest) : ProtectResult :=
  match extractToken req with
  | none => .rejected 401 "You are not logged in. Please log in to get access.".toList
  | some token =>
    if token.isEmpty then
      .rejected 401 "You are not logged in. Please log in to get access.".toList
    else
      match auth.jwtVerify token with
      | none => .rejected 401 "Invalid token. Please log in again.".toList
      | some id =>
        match findUserById users id with
        | none => .rejected 401 "The user belonging to this token no longer exists.".toList
        | some user => .next user

/-- The fields of a user that the login route returns. -/
structure UserView where
  id : Nat
  email : JsString
  companyName : Option JsString
  tenantId : Nat
deriving DecidableEq

/-- The answer of the login route: status, `message`, the token of the body,
the value of the cookie `token` it sets and the user it returns. -/
structure LoginResponse where
  status : Nat
  message : JsString
  token : Option JsString
  cookie : Option JsString
  user : Option UserView
deriving DecidableEq

/-- The query `prisma.user.findUnique({ where: { email } })`. -/
def findUserByEmail (users : List User) (email : JsString) : Option User :=
  users.find? fun u => u.email == email

/-- The handler `router.post('/login')`.  An `email` or a `password` that is
not a string makes `findUnique` or `bcrypt.compare` throw, which the `catch`
block answers with 500. -/
def login (auth : AuthEnv) (users : List User) (email password : JsValue) : LoginResponse :=
  match email with
  | .string email =>
    match findUserByEmail users email with
    | none =>
      { status := 401, message := "Invalid email or password".toList, token := none,
        cookie := none, user := none }
    | some user =>
      match password with
      | .string password =>
        if !auth.bcryptCompare password user.password then
          { status := 401, message := "Invalid email or password".toList, token := none,
            cookie := none, user := none }
        else
          { status := 200, message := "Login successful".toList,
            token := some (auth.jwtSign user), cookie := some (auth.jwtSign user),
            user := some { id := user.id, email := user.email, companyName := user.companyName,
                           tenantId := user.tenantId } }
      | _ =>
        { status := 500, message := "Error during login".toList, token := none,
          cookie := none, user := none }
  | _ =>
    { status := 500, message := "Error during login".toList, token := none, cookie := none,
      user := none }

/-! ## The widget routes (`routes/widget.js`) -/

/-- The fields the widget update reads from the request body. -/
structure WidgetBody where
  color : JsValue
  position : JsValue
  welcomeText : JsValue
  logoUrl : JsValue
  aiSettings : JsValue

/-- The widget as the update route returns it: the stored row with
`aiSettings` parsed. -/
structure WidgetView where
  tenantId : Nat
  color : JsString
  position : JsString
  welcomeText : JsString
  logoUrl : Option JsString
  aiSettings : JsValue

/-- The answer of the widget update. -/
structure WidgetResponse where
  status : Nat
  message : JsString
  data : Option WidgetView

/-- The argument `data` of `prisma.widget.update`: for each column the value to
store, `none` when the spread leaves the column out. -/
structure WidgetData where
  color : Option JsString
  position : Option JsString
  welcomeText : Option JsString
  logoUrl : Option JsString
  aiSettings : Option JsString
deriving DecidableEq

/-- Modelled from the spec: `color`, `position`, `welcomeText` and `logoUrl` are
text columns (the Prisma schema is not among the sources).  The entry of
`data` made by the spread `...(value && { column: value })`: a falsy value
leaves the column out (`some none`), a non-empty string is the value to store;
every other truthy value is rejected by the update, and `none` stands for the
rejection. -/
def spreadColumn (value : JsValue) : Option (Option JsString) :=
  if value.truthy then
    match value with
    | .string s => some (some s)
    | _ => none
  else some none

/-- The argument `data` built from the body; `none` when the update rejects
it.  `stringify` is `JSON.stringify`. -/
def widgetData (stringify : JsValue → JsString) (body : WidgetBody) : Option WidgetData :=
  match spreadColumn body.color, spreadColumn body.position, spreadColumn body.welcomeText,
    spreadColumn body.logoUrl with
  | some color, some position, some welcomeText, some logoUrl =>
    some { color := color, position := position, welcomeText := welcomeText, logoUrl := logoUrl
           aiSettings :=
             if body.aiSettings.truthy then some (stringify body.aiSettings) else none }
  | _, _, _, _ => none

/-- The row after the update with `data`: the columns present in `data` get
their value, the other ones keep theirs. -/
def applyWidgetData (data : WidgetData) (widget : Widget) : Widget :=
  { widget with
    color := data.color.getD widget.color
    position := data.position.getD widget.position
    welcomeText := data.welcomeText.getD widget.welcomeText
    logoUrl := match data.logoUrl with
      | some url => some url
      | none => widget.logoUrl
    aiSettings := match data.aiSettings with
      | some text => some text
      | none => widget.aiSettings }

/-- The answer of the `catch` block of the widget update. -/
def widgetError : WidgetResponse :=
  { status := 500, message := "Error updating widget configuration".toList, data := none }

/-- The handler `router.put('/')` of the widget for an authenticated caller of
tenant `tenantId`; `stringify` and `parse` are `JSON.stringify` and
`JSON.parse` (`none` when it throws). -/
def putWidget (stringify : JsValue → JsString) (parse : JsString → Option JsValue) (db : Db)
    (tenantId : Nat) (body : WidgetBody) : Db × WidgetResponse :=
  match findWidget db tenantId with
  | none =>
    (db, { status := 404, message := "Widget configuration not found".toList, data := none })
  | some widget =>
    match widgetData stringify body with
    | none => (db, widgetError)
    | some data =>
      let db1 : Db :=
        { db with widgets := db.widgets.map fun w =>
            if w.tenantId == tenantId then applyWidgetData data w else w }
      let updated := applyWidgetData data widget
      let stored := updated.aiSettings.getD []
      match (if !stored.isEmpty then parse stored else some .null) with
      | none => (db1, widgetError)
      | some aiSettings =>
        (db1, { status := 200,
                message := "Widget configuration updated successfully".toList,
                data := some { tenantId := updated.tenantId, color := updated.color,
                               position := updated.position,
                               welcomeText := updated.welcomeText,
                               logoUrl := updated.logoUrl, aiSettings := aiSettings } })

/-- The public configuration of a widget. -/
structure PublicWidget where
  color : JsString
  position : JsString
  welcomeText : JsString
  logoUrl : Option JsString
deriving DecidableEq

/-- The answer of the public widget route. -/
structure PublicWidgetResponse where
  status : Nat
  message : Option JsString
  data : Option PublicWidget
deriving DecidableEq

/-- The handler of `router.get('/public/:tenantId')` itself. -/
def getPublicWidget (db : Db) (tenantId : Nat) : PublicWidgetResponse :=
  match findWidget db tenantId with
  | none =>
    { status := 404, message := some "Widget configuration not found".toList, data := none }
  | some widget =>
    { status := 200, message := none,
      data := some { color := widget.color, position := widget.position,
                     welcomeText := widget.welcomeText, logoUrl := widget.logoUrl } }

/-- The request `GET /public/:tenantId` as the widget router serves it: the
router registers `router.use(protect)` before all its routes, so `protect`
runs first and the handler runs only when `protect` calls `next()`. -/
def widgetRouterPublic (auth : AuthEnv) (users : List User) (db : Db) (req : AuthRequest)
    (tenantId : Nat) : PublicWidgetResponse :=
  match protect auth users req with
  | .rejected status message => { status := status, message := some message, data := none }
  | .next _ => getPublicWidget db tenantId

/-! ## Predicates and sample data of the statements -/

/-- The white-space and line-terminator code points that
`String.prototype.trim()` removes. -/
def isWhiteSpace (c : Char) : Bool :=
  let n := c.toNat
  n == 9 || n == 10 || n == 11 || n == 12 || n == 13 || n == 32 || n == 160 || n == 5760 ||
    (8192 ≤ n && n ≤ 8202) || n == 8232 || n == 8233 || n == 8239 || n == 8287 ||
    n == 12288 || n == 65279

/-- The content is empty after trimming: every character is white space. -/
def isBlank (s : JsString) : Bool :=
  s.all isWhiteSpace

/-- The visitor message the handler creates in store `db`. -/
def visitorMessage (env : Env) (db : Db) (id : Nat) (text : JsString) : Message :=
  { id := db.nextId, content := text, sender := "user".toList, status := defaultStatus,
    conversationId := id, createdAt := env.now }

/-- The reply message the handler creates after the visitor message. -/
def replyMessage (env : Env) (db : Db) (id : Nat) (text : JsString) : Message :=
  { id := db.nextId + 1, content := text, sender := "bot".toList, status := defaultStatus,
    conversationId := id, createdAt := env.now }

/-- An environment without provider. -/
def sampleEnv : Env :=
  { OPENAI_API_KEY := none, now := 100, randomNum := 0, randomDen := 1,
    jsonParse := fun _ => none, axiosPost := fun _ => none, coerce := fun _ => none }

/-- A store with one empty conversation, number 1 of tenant 7. -/
def sampleDb : Db :=
  { conversations := [{ id := 1, tenantId := 7, updatedAt := 5 }], messages := [],
    knowledgeBase := [], widgets := [], nextId := 0 }

/-- The rule-based phrases: the help, thank and generic phrases and the two
variants of the question phrase. -/
def ruleBasedPhrases : List JsString :=
  [helpPhrase, thankPhrase, questionOpening ++ insightsSentence,
   questionOpening ++ noInformationSentence, genericPhrase]

/-- The settings text whose `defaultResponses` is the empty array. -/
def emptyDefaultsText : JsString :=
  "\x7b\"defaultResponses\":[]\x7d".toList

/-- The settings text whose `defaultResponses` holds one text, equal to the
generic phrase. -/
def genericDefaultsText : JsString :=
  "\x7b\"defaultResponses\":[\"I understand. Let me know if you have any specific questions I can help with.\"]\x7d".toList

/-- The settings text that disables the knowledge base. -/
def disabledKnowledgeText : JsString :=
  "\x7b\"knowledgeBaseEnabled\":false\x7d".toList

/-- The result of `JSON.parse` on the sample settings texts; it throws on every
other text. -/
def sampleParse (text : JsString) : Option JsValue :=
  if text == emptyDefaultsText then
    some (.object [("defaultResponses".toList, .array [])])
  else if text == genericDefaultsText then
    some (.object [("defaultResponses".toList, .array [.string genericPhrase])])
  else if text == disabledKnowledgeText then
    some (.object [("knowledgeBaseEnabled".toList, .bool false)])
  else
    none

/-- An environment with a provider configured whose every call is rejected;
`Math.random()` returns one half. -/
def failingEnv : Env :=
  { OPENAI_API_KEY := some "sk-test".toList, now := 100, randomNum := 1, randomDen := 2,
    jsonParse := sampleParse, axiosPost := fun _ => none, coerce := fun _ => none }

/-- The sample store with a widget of tenant 7 holding the settings `text`. -/
def sampleDbWith (text : JsString) : Db :=
  { sampleDb with
    widgets := [{ tenantId := 7, color := "#3B82F6".toList, position := "right".toList,
                  welcomeText := "Hello!".toList, logoUrl := none, aiSettings := some text }] }

/-- The text of a reply value, when it is a string. -/
def JsValue.asText : JsValue → Option JsString
  | .string s => some s
  | _ => none

/-- Settings with three configured default responses. -/
def threeDefaults : JsValue :=
  .object [("defaultResponses".toList,
    .array [.string "a".toList, .string "b".toList, .string "c".toList])]

/-- The environment without provider whose `JSON.parse` reads the sample
settings texts. -/
def sampleEnvParsing : Env :=
  { sampleEnv with jsonParse := sampleParse }

/-- A free-text knowledge entry of tenant 7. -/
def sampleEntry : KnowledgeEntry :=
  { id := 1, tenantId := 7, type := "text".toList, question := none, answer := none,
    content := some "We ship worldwide.".toList, updatedAt := 3 }

/-- Settings that disable the knowledge base. -/
def disabledKnowledge : JsValue :=
  .object [("knowledgeBaseEnabled".toList, .bool false)]

/-- The text `join` writes for an entry: its rendering, with `null` written as
the empty string. -/
def renderedText (entry : KnowledgeEntry) : JsString :=
  (renderEntry entry).getD []

/-- A Q&A entry of tenant 7, updated at time 9. -/
def sampleQaEntry : KnowledgeEntry :=
  { id := 2, tenantId := 7, type := "qa".toList, question := some "Do you ship abroad?".toList,
    answer := some "Yes.".toList, content := none, updatedAt := 9 }

/-- The sample store with two knowledge entries of tenant 7, the older one
stored first. -/
def sampleDbWithEntries : Db :=
  { sampleDb with knowledgeBase := [sampleEntry, sampleQaEntry] }

/-- A store whose conversation 1 of tenant 7 holds eleven messages, created at
the times 1 to 11 and sent in turn by the visitor and by the bot. -/
def longConversationDb : Db :=
  { sampleDb with
    messages := (List.range 11).map fun i =>
      { id := i, content := ("message " ++ toString (i + 1)).toList,
        sender := if i % 2 == 0 then "user".toList else "bot".toList,
        status := defaultStatus, conversationId := 1, createdAt := i + 1 }
    nextId := 11 }

/-- The body of a well-formed completion whose text is `text`. -/
def completionOf (text : JsString) : JsValue :=
  .object [("choices".toList,
    .array [.object [("message".toList, .object [("content".toList, .string text)])]])]

/-- An environment with a provider configured whose every call is answered
by the completion "Sure."; the clock reads 100. -/
def answeringEnv : Env :=
  { OPENAI_API_KEY := some "sk-test".toList, now := 100, randomNum := 1, randomDen := 2,
    jsonParse := sampleParse, axiosPost := fun _ => some (completionOf "Sure.".toList),
    coerce := fun _ => none }

/-- The invariant of the fanout after the events `events`: every room of a
connected socket is the room of its own id or a room it has joined with a
`join-tenant` event, and every delivery in its log was emitted to one of its
rooms. -/
def FanoutInvariant (events : List SocketEvent) (server : Server) : Prop :=
  ∀ s ∈ server,
    (∀ r ∈ s.rooms, r = s.id ∨ SocketEvent.joinTenant s.id r ∈ events) ∧
    (∀ d ∈ s.received, d.room ∈ s.rooms)

/-- A stored message of conversation 1, with status `sent`. -/
def sampleMessage : Message :=
  { id := 0, content := "hello".toList, sender := "user".toList, status := "sent".toList,
    conversationId := 1, createdAt := 50 }

/-- Socket 1 joins the rooms of tenants 10 and 20, socket 2 joins the room of
tenant 20 and publishes the sample message to tenant 20. -/
def sampleEvents : List SocketEvent :=
  [.connection 1, .joinTenant 1 10, .joinTenant 1 20, .connection 2, .joinTenant 2 20,
   .messageNew 2 20 sampleMessage]

/-- The position of a status in the order `sent`, `delivered`, `seen` of the
data model; every other text counts as `sent`. -/
def statusRank (status : JsString) : Nat :=
  if status == "seen".toList then 2
  else if status == "delivered".toList then 1
  else 0

/-- The sample store with one message in conversation 1 of tenant 7, whose
status is `status`. -/
def sampleDbWithMessage (status : JsString) : Db :=
  { sampleDb with messages := [{ sampleMessage with status := status }], nextId := 1 }

/-- Settings that configure the temperature 0. -/
def zeroTemperature : JsValue :=
  .object [("temperature".toList, .number ⟨0, 1⟩)]

/-- The settings text that configures the temperature 0. -/
def zeroTemperatureText : JsString :=
  "\x7b\"temperature\":0\x7d".toList

/-- The answering environment whose `JSON.parse` reads the settings text that
configures the temperature 0 and throws on every other text. -/
def zeroTemperatureEnv : Env :=
  { answeringEnv with
    jsonParse := fun text => if text == zeroTemperatureText then some zeroTemperature else none }

/-- The number of a value, when it is a number. -/
def JsValue.asNumber : JsValue → Option JsNumber
  | .number n => some n
  | _ => none

/-- A body field is missing or empty: `undefined`, `null` or the empty
string. -/
def missingOrEmpty : JsValue → Bool
  | .undefined => true
  | .null => true
  | .string s => s.isEmpty
  | _ => false

/-- A body field is a text or is missing. -/
def isTextOrMissing : JsValue → Bool
  | .undefined => true
  | .null => true
  | .string _ => true
  | _ => false

/-- The requests the creation of a knowledge entry is said to reject: the type
is missing or not one of `text` and `qa`, or the type is `qa` and question or
answer is missing or empty, or the type is `text` and content is missing or
empty. -/
def entryRejected (body : EntryBody) : Bool :=
  !isEntryType body.type ||
    (isQa body.type && (missingOrEmpty body.question || missingOrEmpty body.answer)) ||
    (isText body.type && missingOrEmpty body.content)

/-- A knowledge entry is a well-formed variant: of type `text` with a content,
or of type `qa` with a question and an answer. -/
def KnowledgeEntry.wellFormed (e : KnowledgeEntry) : Bool :=
  (e.type == "text".toList && e.content.isSome) ||
    (e.type == "qa".toList && e.question.isSome && e.answer.isSome)

/-- The body of an update that carries a new content and no type. -/
def contentOnlyBody : EntryBody :=
  { type := .undefined, question := .undefined, answer := .undefined,
    content := .string "We ship to Europe.".toList }

/-- The body of an update that changes the type to `qa` and carries no
question and no answer. -/
def typeOnlyBody : EntryBody :=
  { type := .string "qa".toList, question := .undefined, answer := .undefined,
    content := .undefined }

/-- The body of a well-formed Q&A entry. -/
def qaBody : EntryBody :=
  { type := .string "qa".toList, question := .string "Do you ship abroad?".toList,
    answer := .string "Yes.".toList, content := .string "ignored".toList }

/-- A registered user of tenant 7. -/
def sampleUser : User :=
  { id := 1, email := "owner@example.com".toList, password := "hash-of-secret".toList,
    companyName := some "Example".toList, tenantId := 7 }

/-- Sample cryptography: the token "valid-token" verifies to the user 1, and
only the password "secret" matches the hash "hash-of-secret". -/
def sampleAuth : AuthEnv :=
  { jwtVerify := fun token => if token == "valid-token".toList then some 1 else none
    jwtSign := fun _ => "valid-token".toList
    bcryptCompare := fun password hash =>
      password == "secret".toList && hash == "hash-of-secret".toList }

/-- A request that carries no token. -/
def anonymousRequest : AuthRequest :=
  { authorization := none, cookieToken := none }

/-- A body field of a text column is usable: it is falsy or a string. -/
def isTextOrFalsy (v : JsValue) : Bool :=
  !v.truthy || v.asText.isSome

/-- A widget update that sets the colour and the AI settings. -/
def colorAndSettingsBody : WidgetBody :=
  { color := .string "#FF0000".toList, position := .undefined, welcomeText := .string [],
    logoUrl := .null, aiSettings := disabledKnowledge }

/-- Sample `JSON.stringify`: the settings that disable the knowledge base are
written as the sample text, every other value as "null". -/
def sampleStringify (v : JsValue) : JsString :=
  match v with
  | .object [(key, .bool false)] =>
    if key == "knowledgeBaseEnabled".toList then disabledKnowledgeText else "null".toList
  | _ => "null".toList

/-- The row the widget update is said to store in place of `w`: each of the
five fields gets the value of the body when that value is truthy and keeps
its own otherwise; `aiSettings` is stored serialised. -/
def expectedWidget (stringify : JsValue → JsString) (body : WidgetBody) (w : Widget) : Widget :=
  { w with
    color := if body.color.truthy then body.color.asText.getD w.color else w.color
    position := if body.position.truthy then body.position.asText.getD w.position
                else w.position
    welcomeText := if body.welcomeText.truthy then body.welcomeText.asText.getD w.welcomeText
                   else w.welcomeText
    logoUrl := if body.logoUrl.truthy then body.logoUrl.asText else w.logoUrl
    aiSettings := if body.aiSettings.truthy then some (stringify body.aiSettings)
                  else w.aiSettings }

/-! ## Lemmas on the store and on strings -/

theorem startsWith_cons_head {s q : JsString} {c : Char}
    (h : startsWith s (c :: q) = true) : ∃ s', s = c :: s' := by
  cases s with
  | nil => simp [startsWith] at h
  | cons d s' =>
    simp only [startsWith, Bool.and_eq_true, beq_iff_eq] at h
    exact ⟨s', by rw [h.1]⟩

theorem includes_cons_mem {s q : JsString} {c : Char}
    (h : includes s (c :: q) = true) : c ∈ s := by
  induction s with
  | nil => simp [includes, startsWith] at h
  | cons d s' ih =>
    simp only [includes, Bool.or_eq_true] at h
    rcases h with h | h
    · obtain ⟨t, ht⟩ := startsWith_cons_head h
      simp only [List.cons.injEq] at ht
      simp [ht.1]
    · exact List.mem_cons_of_mem _ (ih h)

theorem isBlank_mem {s : JsString} (hs : isBlank s = true) {c : Char} (hc : c ∈ s) :
    isWhiteSpace c = true := by
  simp only [isBlank, List.all_eq_true] at hs
  exact hs c hc

theorem toLower_of_isWhiteSpace {c : Char} (h : isWhiteSpace c = true) : c.toLower = c := by
  unfold Char.toLower
  have hn : ¬ (c.toNat ≥ 65 ∧ c.toNat ≤ 90) := by
    intro hr
    simp only [isWhiteSpace, Bool.or_eq_true, Bool.and_eq_true, beq_iff_eq,
      decide_eq_true_eq] at h
    omega
  simp only [hn, if_false]

theorem isBlank_not_includes {s q : JsString} {c : Char} (hs : isBlank s = true)
    (hc : isWhiteSpace c = false) : includes s (c :: q) = false := by
  cases h : includes s (c :: q) with
  | false => rfl
  | true =>
    have := isBlank_mem hs (includes_cons_mem h)
    rw [hc] at this
    cases this

theorem isBlank_not_startsWith_lower {s q : JsString} {c : Char} (hs : isBlank s = true)
    (hc : isWhiteSpace c = false) : startsWith (toLowerCase s) (c :: q) = false := by
  cases h : startsWith (toLowerCase s) (c :: q) with
  | false => rfl
  | true =>
    obtain ⟨t, ht⟩ := startsWith_cons_head h
    cases s with
    | nil => simp [toLowerCase] at ht
    | cons d s' =>
      simp only [toLowerCase, List.map_cons, List.cons.injEq] at ht
      have hd : isWhiteSpace d = true := isBlank_mem hs (List.mem_cons_self d s')
      rw [toLower_of_isWhiteSpace hd] at ht
      rw [ht.1, hc] at hd
      cases hd

theorem simpleResponse_of_isBlank {s : JsString} (hs : isBlank s = true) (context : JsString) :
    simpleResponse s context = genericPhrase := by
  have h1 : includes s "help".toList = false := isBlank_not_includes hs (by decide)
  have h2 : includes s "thank".toList = false := isBlank_not_includes hs (by decide)
  have h3 : startsWithQuestion s = false := by
    simp only [startsWithQuestion, questions, List.any_cons, List.any_nil, Bool.or_false,
      Bool.or_eq_false_iff]
    refine ⟨?_, ?_, ?_, ?_, ?_, ?_, ?_, ?_, ?_, ?_⟩ <;>
      exact isBlank_not_startsWith_lower hs (by decide)
  simp only [simpleResponse, h1, h2, h3, Bool.false_eq_true, if_false]

theorem findWidget_createMessage (db : Db) (now : Nat) (content sender : JsString)
    (conversationId tenantId : Nat) :
    findWidget (createMessage db now content sender conversationId).1 tenantId =
      findWidget db tenantId := rfl

theorem handlerContext_createMessage (env : Env) (db : Db) (now : Nat)
    (content sender : JsString) (conversationId tenantId : Nat) :
    handlerContext env (createMessage db now content sender conversationId).1 tenantId =
      handlerContext env db tenantId := rfl

theorem aiResponse_noProvider (env : Env) (h : env.hasProvider = false) (aiSettings : JsValue)
    (context content : JsString) (previousMessages : List Message) :
    aiResponse env aiSettings context content previousMessages =
      .string (simpleResponse content context) := by
  simp [aiResponse, tryResponse, h]

/-- With no provider, a text content on a conversation of the caller is
answered 201: the visitor message and the rule-based reply are appended and
the conversation is touched. -/
theorem postMessage_noProvider (env : Env) (db : Db) (tenantId id : Nat) (text : JsString)
    (c : Conversation) (hc : findConversation db id tenantId = some c)
    (hp : env.hasProvider = false) :
    postMessage env db tenantId id (.string text) =
      (touchConversation
          { db with
            messages := db.messages ++
              [visitorMessage env db id text,
               replyMessage env db id (simpleResponse text (handlerContext env db tenantId))]
            nextId := db.nextId + 2 } id env.now,
        { status := 201, message := "Messages added successfully".toList,
          data := some (visitorMessage env db id text,
            replyMessage env db id (simpleResponse text (handlerContext env db tenantId))) }) := by
  simp only [postMessage, hc, createMessageChecked, aiResponse_noProvider env hp,
    findWidget_createMessage, handlerContext_createMessage]
  simp [createMessage, visitorMessage, replyMessage, touchConversation]

theorem findConversation_of_owned (db : Db) (tenantId id : Nat)
    (h : ∃ c ∈ db.conversations, c.id = id ∧ c.tenantId = tenantId) :
    ∃ c, findConversation db id tenantId = some c := by
  obtain ⟨c, hmem, hid, ht⟩ := h
  cases hf : findConversation db id tenantId with
  | some c' => exact ⟨c', rfl⟩
  | none =>
    simp only [findConversation, List.find?_eq_none] at hf
    have := hf c hmem
    simp [hid, ht] at this

theorem findConversation_of_not_owned (db : Db) (tenantId id : Nat)
    (h : ∀ c ∈ db.conversations, c.id = id → c.tenantId ≠ tenantId) :
    findConversation db id tenantId = none := by
  simp only [findConversation, List.find?_eq_none]
  intro c hmem
  have := h c hmem
  simp only [Bool.and_eq_true, beq_iff_eq, not_and]
  exact this

/-- Whatever the reply, a text content on a conversation of the caller leaves
the visitor message in the store, followed by at most one more message. -/
theorem postMessage_stores_visitor (env : Env) (db : Db) (tenantId id : Nat) (text : JsString)
    (c : Conversation) (hc : findConversation db id tenantId = some c) :
    ∃ rest, (postMessage env db tenantId id (.string text)).1.messages =
      db.messages ++ visitorMessage env db id text :: rest ∧ rest.length ≤ 1 := by
  simp only [postMessage, hc, createMessageChecked]
  generalize aiResponse env _ _ text _ = reply
  cases reply <;>
    simp [createMessageChecked, createMessage, touchConversation, visitorMessage]

theorem randomIndex_ofNat (env : Env) (n : Nat) :
    env.randomIndex (some (JsNumber.ofNat n)) =
      some (Int.ofNat (env.randomNum * n / env.randomDen)) := by
  simp only [Env.randomIndex, JsNumber.ofNat, Option.map_some', Nat.cast_one, mul_one,
    Int.ofNat_eq_coe]
  rw [Int.fdiv_eq_ediv _ (Int.ofNat_nonneg _)]
  norm_cast

theorem random_draw_lt (env : Env) (hrand : env.randomNum < env.randomDen) {n : Nat}
    (hn : 0 < n) : env.randomNum * n / env.randomDen < n := by
  have hden : 0 < env.randomDen := Nat.lt_of_le_of_lt (Nat.zero_le _) hrand
  rw [Nat.div_lt_iff_lt_mul hden]
  exact Nat.mul_lt_mul_of_lt_of_le hrand (Nat.le_refl n) hn |>.trans_le
    (by rw [Nat.mul_comm])

/-- The `catch` block on an array: the element at the drawn position. -/
theorem index_array_draw (env : Env) (items : List JsValue) :
    (JsValue.array items).index
        (env.randomIndex (((JsValue.array items).member "length".toList).toNumber env.coerce)) =
      (items.get? (env.randomNum * items.length / env.randomDen)).getD .undefined := by
  have hlen : (JsValue.array items).member "length".toList =
      .number (JsNumber.ofNat items.length) := by
    simp [JsValue.member]
  rw [hlen]
  simp only [JsValue.toNumber, randomIndex_ofNat, JsValue.index]

theorem simpleResponse_mem (content context : JsString) :
    simpleResponse content context ∈
      [helpPhrase, thankPhrase, questionPhrase context, genericPhrase] := by
  unfold simpleResponse
  split
  · simp
  · split
    · simp
    · split <;> simp

theorem questionPhrase_mem (context : JsString) : questionPhrase context ∈ ruleBasedPhrases := by
  unfold questionPhrase ruleBasedPhrases
  cases context <;> simp

theorem simpleResponse_ruleBased (content context : JsString) :
    simpleResponse content context ∈ ruleBasedPhrases := by
  have h := simpleResponse_mem content context
  simp only [List.mem_cons, List.mem_singleton, List.not_mem_nil, or_false] at h
  rcases h with h | h | h | h
  · rw [h]; simp [ruleBasedPhrases]
  · rw [h]; simp [ruleBasedPhrases]
  · rw [h]; exact questionPhrase_mem context
  · rw [h]; simp [ruleBasedPhrases]

theorem knowledgeBaseAllowed_of_disabled (aiSettings : JsValue)
    (h : aiSettings.optGet "knowledgeBaseEnabled".toList = .bool false) :
    knowledgeBaseAllowed aiSettings = false := by
  cases aiSettings with
  | undefined => simp [JsValue.optGet] at h
  | null => simp [JsValue.optGet] at h
  | bool b => simp [JsValue.optGet, JsValue.member] at h
  | number n => simp [JsValue.optGet, JsValue.member] at h
  | string s =>
    simp only [JsValue.optGet, JsValue.member] at h
    split at h <;> simp at h
  | array items =>
    simp only [JsValue.optGet, JsValue.member] at h
    split at h <;> simp at h
  | object fields =>
    simp only [JsValue.optGet] at h
    unfold knowledgeBaseAllowed
    rw [h]
    rfl

theorem buildContext_disabled (knowledgeEntries : List KnowledgeEntry) (aiSettings : JsValue)
    (h : aiSettings.optGet "knowledgeBaseEnabled".toList = .bool false) :
    buildContext knowledgeEntries aiSettings = [] := by
  simp [buildContext, knowledgeBaseAllowed_of_disabled aiSettings h]

theorem buildContext_nil (aiSettings : JsValue) : buildContext [] aiSettings = [] := by
  simp [buildContext]

theorem findKnowledgeEntries_nil (db : Db) (tenantId : Nat)
    (h : ∀ e ∈ db.knowledgeBase, e.tenantId ≠ tenantId) :
    findKnowledgeEntries db tenantId = [] := by
  have hf : (db.knowledgeBase.filter fun e => e.tenantId == tenantId) = [] := by
    rw [List.filter_eq_nil_iff]
    intro e he
    simpa using h e he
  simp [findKnowledgeEntries, hf]

theorem join_cons (p : JsString) (rest : List JsString) (sep : JsString) :
    join (p :: rest) sep = p ++ (rest.map fun q => sep ++ q).flatten := by
  induction rest generalizing p with
  | nil => simp [join]
  | cons q rest ih =>
    rw [join, ih q]
    simp [List.append_assoc]

theorem knowledgeBaseAllowed_of_enabled (aiSettings : JsValue)
    (h : aiSettings.optGet "knowledgeBaseEnabled".toList ≠ .bool false) :
    knowledgeBaseAllowed aiSettings = true := by
  have key : ∀ v : JsValue, v ≠ .bool false →
      (match v with
       | .bool false => false
       | _ => true) = true := by
    intro v hv
    cases v with
    | bool b =>
      cases b
      · exact absurd rfl hv
      · rfl
    | _ => rfl
  unfold knowledgeBaseAllowed
  cases aiSettings with
  | undefined => rfl
  | null => rfl
  | bool b =>
    have h' : (JsValue.bool b).member "knowledgeBaseEnabled".toList ≠ .bool false := h
    rw [key _ h', Bool.or_true]
  | number n =>
    have h' : (JsValue.number n).member "knowledgeBaseEnabled".toList ≠ .bool false := h
    rw [key _ h', Bool.or_true]
  | string s =>
    have h' : (JsValue.string s).member "knowledgeBaseEnabled".toList ≠ .bool false := h
    rw [key _ h', Bool.or_true]
  | array items =>
    have h' : (JsValue.array items).member "knowledgeBaseEnabled".toList ≠ .bool false := h
    rw [key _ h', Bool.or_true]
  | object fields =>
    have h' : (JsValue.object fields).member "knowledgeBaseEnabled".toList ≠ .bool false := h
    rw [key _ h', Bool.or_true]

theorem findKnowledgeEntries_pairwise (db : Db) (tenantId : Nat) :
    List.Pairwise (fun a b : KnowledgeEntry => b.updatedAt ≤ a.updatedAt)
      ((db.knowledgeBase.filter fun e => e.tenantId == tenantId).insertionSort
        fun a b => b.updatedAt ≤ a.updatedAt) := by
  haveI : IsTotal KnowledgeEntry (fun a b => b.updatedAt ≤ a.updatedAt) :=
    ⟨fun a b => Nat.le_total b.updatedAt a.updatedAt⟩
  haveI : IsTrans KnowledgeEntry (fun a b => b.updatedAt ≤ a.updatedAt) :=
    ⟨fun _ _ _ hab hbc => Nat.le_trans hbc hab⟩
  exact List.sorted_insertionSort (fun a b : KnowledgeEntry => b.updatedAt ≤ a.updatedAt) _

/-- With a provider configured, the reply of the handler is read from the
answer of the remote call to the request `handlerRequest`: when that answer
holds a text, the handler answers 201 and stores the visitor message and the
reply carrying that text. -/
theorem postMessage_provider (env : Env) (db : Db) (tenantId id : Nat) (text reply : JsString)
    (c : Conversation) (data : JsValue) (hc : findConversation db id tenantId = some c)
    (hp : env.hasProvider = true)
    (hpost : env.axiosPost (handlerRequest env db tenantId id text) = some data)
    (hread : readCompletion data = some (.string reply)) :
    postMessage env db tenantId id (.string text) =
      (touchConversation
          { db with
            messages := db.messages ++
              [visitorMessage env db id text, replyMessage env db id reply]
            nextId := db.nextId + 2 } id env.now,
        { status := 201, message := "Messages added successfully".toList,
          data := some (visitorMessage env db id text, replyMessage env db id reply) }) := by
  have hai : aiResponse env (loadAiSettings env (findWidget db tenantId))
      (handlerContext env db tenantId) text
      (findPreviousMessages (createMessage db env.now text "user".toList id).1 id) =
      .string reply := by
    have hpost' : env.axiosPost (chatRequest (env.OPENAI_API_KEY.getD [])
        (loadAiSettings env (findWidget db tenantId)) (handlerContext env db tenantId)
        (conversationHistory
          (findPreviousMessages (createMessage db env.now text "user".toList id).1 id) text)) =
        some data := hpost
    simp only [aiResponse, tryResponse, hp, if_true, hpost', Option.bind, hread]
  simp only [postMessage, hc, createMessageChecked, findWidget_createMessage,
    handlerContext_createMessage, hai]
  simp [createMessage, visitorMessage, replyMessage, touchConversation]

theorem fanoutInvariant_mono {events events' : List SocketEvent} {server : Server}
    (h : FanoutInvariant events server) (hsub : ∀ e ∈ events, e ∈ events') :
    FanoutInvariant events' server := by
  intro s hs
  refine ⟨fun r hr => ?_, (h s hs).2⟩
  rcases (h s hs).1 r hr with h1 | h1
  · exact Or.inl h1
  · exact Or.inr (hsub _ h1)

theorem fanoutInvariant_emitTo {events : List SocketEvent} {server : Server}
    (h : FanoutInvariant events server) (room : Nat) (emitted : Emitted) :
    FanoutInvariant events (emitTo server room emitted) := by
  intro s hs
  simp only [Chatlyb.emitTo, List.mem_map] at hs
  obtain ⟨s0, hs0, rfl⟩ := hs
  by_cases hroom : s0.rooms.contains room = true
  · simp only [hroom, if_true]
    refine ⟨(h s0 hs0).1, ?_⟩
    intro d hd
    simp only [List.mem_append, List.mem_singleton] at hd
    rcases hd with hd | hd
    · exact (h s0 hs0).2 d hd
    · rw [hd]
      simpa using hroom
  · simp only [hroom, Bool.false_eq_true, if_false]
    exact h s0 hs0

theorem fanoutInvariant_step {events : List SocketEvent} {server : Server}
    (h : FanoutInvariant events server) (event : SocketEvent) :
    FanoutInvariant (events ++ [event]) (step server event) := by
  have hmono : FanoutInvariant (events ++ [event]) server :=
    fanoutInvariant_mono h fun e he => List.mem_append_left _ he
  cases event with
  | connection socketId =>
    simp only [Chatlyb.step, connect]
    split
    · exact hmono
    · intro s hs
      simp only [List.mem_append, List.mem_singleton] at hs
      rcases hs with hs | hs
      · exact hmono s hs
      · rw [hs]
        refine ⟨fun r hr => Or.inl ?_, fun d hd => ?_⟩
        · simpa using hr
        · simp at hd
  | joinTenant socketId tenantId =>
    intro s hs
    simp only [Chatlyb.step, joinRoom, List.mem_map] at hs
    obtain ⟨s0, hs0, rfl⟩ := hs
    by_cases hcond : (s0.id == socketId && !s0.rooms.contains tenantId) = true
    · simp only [hcond, if_true]
      have hid : s0.id = socketId := by
        simp only [Bool.and_eq_true, beq_iff_eq] at hcond
        exact hcond.1
      refine ⟨fun r hr => ?_, fun d hd => ?_⟩
      · simp only [List.mem_append, List.mem_singleton] at hr
        rcases hr with hr | hr
        · exact (hmono s0 hs0).1 r hr
        · right
          rw [hr, hid]
          simp
      · exact List.mem_append_left _ ((hmono s0 hs0).2 d hd)
    · simp only [hcond, Bool.false_eq_true, if_false]
      exact hmono s0 hs0
  | messageNew socketId tenantId message =>
    simp only [Chatlyb.step]
    split
    · exact fanoutInvariant_emitTo hmono _ _
    · exact hmono
  | messageUpdate socketId tenantId messageId status =>
    simp only [Chatlyb.step]
    split
    · exact fanoutInvariant_emitTo hmono _ _
    · exact hmono
  | disconnect socketId =>
    intro s hs
    simp only [Chatlyb.step, List.mem_filter] at hs
    exact hmono s hs.1

theorem fanoutInvariant_run (events : List SocketEvent) :
    ∀ (past : List SocketEvent) (server : Server), FanoutInvariant past server →
      FanoutInvariant (past ++ events) (run server events) := by
  induction events with
  | nil =>
    intro past server h
    simpa [Chatlyb.run] using h
  | cons e rest ih =>
    intro past server h
    have h1 := ih (past ++ [e]) (Chatlyb.step server e) (fanoutInvariant_step h e)
    simpa [Chatlyb.run, List.append_assoc] using h1

/-- A valid status on an existing message: the answer is 200 and every row
with the id gets the status. -/
theorem patchMessageStatus_valid (db : Db) (tenantId id : Nat) (status : JsString) (m : Message)
    (hvalid : status ∈ validStatuses) (hm : m ∈ db.messages) (hid : m.id = id) :
    ∃ first, db.messages.find? (fun x => x.id == id) = some first ∧
      patchMessageStatus db tenantId id (.string status) =
        ({ db with messages := db.messages.map fun x =>
              if x.id == id then { x with status := status } else x },
          { status := 200, message := "Message status updated".toList,
            data := some { first with status := status } }) := by
  have hc : validStatuses.contains status = true := by simpa using hvalid
  cases hf : db.messages.find? (fun x => x.id == id) with
  | none =>
    rw [List.find?_eq_none] at hf
    have := hf m hm
    simp [hid] at this
  | some first =>
    refine ⟨first, rfl, ?_⟩
    simp only [patchMessageStatus, hc, if_true, updateMessageStatus, hf]

/-- An answer 201 comes from the one path of the handler that makes the three
writes: the content is a text, the reply is a text, and the store is the result
of creating the visitor message, creating the reply and touching the
conversation, in this order. -/
theorem postMessage_success (env : Env) (db : Db) (tenantId id : Nat) (content : JsValue)
    (h : (postMessage env db tenantId id content).2.status = 201) :
    ∃ text reply : JsString, content = .string text ∧
      postMessage env db tenantId id content =
        (touchConversation
          (createMessage (createMessage db env.now text "user".toList id).1 env.now reply
            "bot".toList id).1 id env.now,
          { status := 201, message := "Messages added successfully".toList,
            data := some (visitorMessage env db id text, replyMessage env db id reply) }) := by
  unfold postMessage at h ⊢
  cases hc : findConversation db id tenantId with
  | none =>
    rw [hc] at h
    simp at h
  | some c =>
    rw [hc] at h
    cases content with
    | string text =>
      simp only [createMessageChecked] at h ⊢
      generalize aiResponse env _ _ text _ = reply at h ⊢
      cases reply with
      | string r =>
        exact ⟨text, r, rfl, rfl⟩
      | _ => simp [createMessageChecked, errorAddingMessage] at h
    | _ => simp [createMessageChecked, errorAddingMessage] at h

theorem findEntry_of_not_owned (db : Db) (tenantId id : Nat)
    (h : ∀ e ∈ db.knowledgeBase, e.id = id → e.tenantId ≠ tenantId) :
    findEntry db id tenantId = none := by
  simp only [findEntry, List.find?_eq_none]
  intro e hmem
  have := h e hmem
  simp only [Bool.and_eq_true, beq_iff_eq, not_and]
  exact this

theorem truthy_of_isTextOrMissing {v : JsValue} (h : isTextOrMissing v = true) :
    v.truthy = !missingOrEmpty v := by
  cases v <;> simp_all [isTextOrMissing, JsValue.truthy, missingOrEmpty]

theorem isEntryType_cases {type : JsValue} (h : isEntryType type = true) :
    type = .string "text".toList ∨ type = .string "qa".toList := by
  cases type with
  | string s =>
    simp only [isEntryType, Bool.or_eq_true, beq_iff_eq] at h
    rcases h with h | h
    · exact Or.inl (by rw [h])
    · exact Or.inr (by rw [h])
  | _ => simp [isEntryType] at h

theorem columnValue_of_text {v : JsValue} (ht : isTextOrMissing v = true)
    (hv : missingOrEmpty v = false) :
    ∃ s, v = .string s ∧ columnValue none v = some (some s) := by
  cases v with
  | string s => exact ⟨s, rfl, rfl⟩
  | _ => simp_all [isTextOrMissing, missingOrEmpty]

theorem startsWith_iff_append (s q : JsString) :
    startsWith s q = true ↔ ∃ rest, s = q ++ rest := by
  induction q generalizing s with
  | nil => simp [startsWith]
  | cons c q ih =>
    cases s with
    | nil => simp [startsWith]
    | cons d s' =>
      simp only [startsWith, Bool.and_eq_true, beq_iff_eq, ih, List.cons_append,
        List.cons.injEq]
      constructor
      · rintro ⟨hcd, rest, hrest⟩
        exact ⟨rest, hcd.symm, hrest⟩
      · rintro ⟨rest, hcd, hrest⟩
        exact ⟨hcd.symm, rest, hrest⟩

theorem startsWithQuestion_iff (content : JsString) :
    startsWithQuestion content = true ↔
      ∃ q ∈ questions, ∃ rest, toLowerCase content = q ++ rest := by
  simp only [startsWithQuestion, List.any_eq_true, startsWith_iff_append]

theorem startsWithQuestion_of_leading_space (c : Char) (rest : JsString)
    (hc : isWhiteSpace c = true) : startsWithQuestion (c :: rest) = false := by
  have hlow : toLowerCase (c :: rest) = c :: toLowerCase rest := by
    simp only [toLowerCase, List.map_cons, toLower_of_isWhiteSpace hc]
  have hno : ∀ (d : Char) (q : JsString), isWhiteSpace d = false →
      startsWith (toLowerCase (c :: rest)) (d :: q) = false := by
    intro d q hd
    cases h : startsWith (toLowerCase (c :: rest)) (d :: q) with
    | false => rfl
    | true =>
      obtain ⟨t, ht⟩ := startsWith_cons_head h
      rw [hlow] at ht
      simp only [List.cons.injEq] at ht
      rw [ht.1, hd] at hc
      cases hc
  simp only [startsWithQuestion, questions, List.any_cons, List.any_nil, Bool.or_false,
    Bool.or_eq_false_iff]
  refine ⟨?_, ?_, ?_, ?_, ?_, ?_, ?_, ?_, ?_, ?_⟩ <;> exact hno _ _ (by decide)

theorem spreadColumn_of_isTextOrFalsy {v : JsValue} (h : isTextOrFalsy v = true) :
    spreadColumn v = some (if v.truthy then v.asText else none) ∧
    (v.truthy = true → ∃ s, v.asText = some s) := by
  cases v with
  | string s =>
    refine ⟨?_, fun _ => ⟨s, rfl⟩⟩
    simp only [spreadColumn, JsValue.asText]
    split <;> rfl
  | undefined => exact ⟨rfl, fun h => by cases h⟩
  | null => exact ⟨rfl, fun h => by cases h⟩
  | bool b =>
    cases b
    · exact ⟨rfl, fun h => by cases h⟩
    · simp [isTextOrFalsy, JsValue.truthy, JsValue.asText] at h
  | number n =>
    by_cases hn : n.num = 0
    · refine ⟨?_, fun h => ?_⟩
      · simp [spreadColumn, JsValue.truthy, hn]
      · simp [JsValue.truthy, hn] at h
    · simp [isTextOrFalsy, JsValue.truthy, JsValue.asText, hn] at h
  | array items => simp [isTextOrFalsy, JsValue.truthy, JsValue.asText] at h
  | object fields => simp [isTextOrFalsy, JsValue.truthy, JsValue.asText] at h

theorem applyWidgetData_expected (stringify : JsValue → JsString) (body : WidgetBody)
    (hcolor : isTextOrFalsy body.color = true) (hposition : isTextOrFalsy body.position = true)
    (hwelcome : isTextOrFalsy body.welcomeText = true)
    (hlogo : isTextOrFalsy body.logoUrl = true) :
    ∃ data, widgetData stringify body = some data ∧
      ∀ w, applyWidgetData data w = expectedWidget stringify body w := by
  obtain ⟨h1, t1⟩ := spreadColumn_of_isTextOrFalsy hcolor
  obtain ⟨h2, t2⟩ := spreadColumn_of_isTextOrFalsy hposition
  obtain ⟨h3, t3⟩ := spreadColumn_of_isTextOrFalsy hwelcome
  obtain ⟨h4, t4⟩ := spreadColumn_of_isTextOrFalsy hlogo
  refine ⟨{ color := if body.color.truthy then body.color.asText else none
            position := if body.position.truthy then body.position.asText else none
            welcomeText := if body.welcomeText.truthy then body.welcomeText.asText else none
            logoUrl := if body.logoUrl.truthy then body.logoUrl.asText else none
            aiSettings :=
              if body.aiSettings.truthy then some (stringify body.aiSettings) else none },
    by simp only [widgetData, h1, h2, h3, h4], ?_⟩
  intro w
  simp only [applyWidgetData, expectedWidget]
  congr 1
  · cases h : body.color.truthy <;> simp
  · cases h : body.position.truthy <;> simp
  · cases h : body.welcomeText.truthy <;> simp
  · cases h : body.logoUrl.truthy
    · simp
    · obtain ⟨s, hs⟩ := t4 h
      simp [hs]
  · cases h : body.aiSettings.truthy <;> simp

/-- For a text password, an email that is not registered and a registered
email with a password that does not match get the same answer: 401 "Invalid
email or password", no token and no cookie. -/
theorem login_text_failures_identical (auth : AuthEnv) (users : List User)
    (unknownEmail knownEmail password wrongPassword : JsString) (user : User)
    (hunknown : findUserByEmail users unknownEmail = none)
    (hknown : findUserByEmail users knownEmail = some user)
    (hwrong : auth.bcryptCompare wrongPassword user.password = false) :
    login auth users (.string unknownEmail) (.string password) =
      login auth users (.string knownEmail) (.string wrongPassword) ∧
    login auth users (.string unknownEmail) (.string password) =
      { status := 401, message := "Invalid email or password".toList, token := none,
        cookie := none, user := none } := by
  simp only [login, hunknown, hknown, hwrong, Bool.not_false, if_true, and_self]

/-! ## The claims -/

/-- C1, refuted at an input: the content of three spaces, sent to a
conversation of the caller with no provider configured, is answered 201 and
the message count of the store changes. -/
theorem C1_blank_content_counterexample :
    isBlank "   ".toList = true ∧
    (∃ c ∈ sampleDb.conversations, c.id = 1 ∧ c.tenantId = 7) ∧
    (postMessage sampleEnv sampleDb 7 1 (.string "   ".toList)).2.status = 201 ∧
    (postMessage sampleEnv sampleDb 7 1 (.string "   ".toList)).1.messages.length ≠
      sampleDb.messages.length := by
  decide

/-- C1 as amended: the handler does not validate the content.  For every
conversation of the caller and every empty or white-space-only text content,
the visitor message carrying the content unchanged is stored, followed by at
most one more message; with no provider configured the answer is 201, the
generic reply is stored after it and the message count grows by two. -/
theorem C1_blank_content_is_stored (env : Env) (db : Db) (tenantId id : Nat) (text : JsString)
    (howned : ∃ c ∈ db.conversations, c.id = id ∧ c.tenantId = tenantId)
    (hblank : isBlank text = true) :
    (∃ rest, (postMessage env db tenantId id (.string text)).1.messages =
        db.messages ++ visitorMessage env db id text :: rest ∧ rest.length ≤ 1) ∧
    (env.hasProvider = false →
      (postMessage env db tenantId id (.string text)).2.status = 201 ∧
      (postMessage env db tenantId id (.string text)).1.messages =
        db.messages ++ [visitorMessage env db id text, replyMessage env db id genericPhrase] ∧
      (postMessage env db tenantId id (.string text)).1.messages.length =
        db.messages.length + 2) := by
  obtain ⟨c, hc⟩ := findConversation_of_owned db tenantId id howned
  refine ⟨postMessage_stores_visitor env db tenantId id text c hc, ?_⟩
  intro hp
  rw [postMessage_noProvider env db tenantId id text c hc hp,
    simpleResponse_of_isBlank hblank]
  simp [touchConversation]

/-- C1, the amended statement at the content of three spaces. -/
theorem C1_blank_content_is_stored_witness :
    (∃ rest, (postMessage sampleEnv sampleDb 7 1 (.string "   ".toList)).1.messages =
        sampleDb.messages ++ visitorMessage sampleEnv sampleDb 1 "   ".toList :: rest ∧
        rest.length ≤ 1) ∧
    (sampleEnv.hasProvider = false →
      (postMessage sampleEnv sampleDb 7 1 (.string "   ".toList)).2.status = 201 ∧
      (postMessage sampleEnv sampleDb 7 1 (.string "   ".toList)).1.messages =
        sampleDb.messages ++ [visitorMessage sampleEnv sampleDb 1 "   ".toList,
          replyMessage sampleEnv sampleDb 1 genericPhrase] ∧
      (postMessage sampleEnv sampleDb 7 1 (.string "   ".toList)).1.messages.length =
        sampleDb.messages.length + 2) :=
  C1_blank_content_is_stored sampleEnv sampleDb 7 1 "   ".toList (by decide) (by decide)

/-- C2: when no conversation with the requested id belongs to the tenant of
the caller (there is none with that id, or it belongs to another tenant), the
handler answers 404 with the message "Conversation not found" and returns the
store unchanged, whatever the content and the environment. -/
theorem C2_foreign_conversation_not_found (env : Env) (db : Db) (tenantId id : Nat)
    (content : JsValue)
    (h : ∀ c ∈ db.conversations, c.id = id → c.tenantId ≠ tenantId) :
    postMessage env db tenantId id content =
      (db, { status := 404, message := "Conversation not found".toList, data := none }) := by
  simp only [postMessage, findConversation_of_not_owned db tenantId id h]

/-- C2 at a conversation of tenant 7 requested by tenant 8. -/
theorem C2_foreign_conversation_not_found_witness :
    (∀ c ∈ sampleDb.conversations, c.id = 1 → c.tenantId ≠ 8) ∧
    postMessage sampleEnv sampleDb 8 1 (.string "hello".toList) =
      (sampleDb, { status := 404, message := "Conversation not found".toList, data := none }) :=
  ⟨by decide, C2_foreign_conversation_not_found sampleEnv sampleDb 8 1 _ (by decide)⟩


/-- C3, the failing input: a provider is configured, the remote call is
rejected and the settings of the tenant hold an empty `defaultResponses`.  The
handler answers 500 "Error adding message" after the visitor message has been
stored, and no reply is stored. -/
theorem C3_empty_default_responses_fails :
    postMessage failingEnv (sampleDbWith emptyDefaultsText) 7 1 (.string "hello".toList) =
      ({ sampleDbWith emptyDefaultsText with
          messages := [visitorMessage failingEnv (sampleDbWith emptyDefaultsText) 1
            "hello".toList]
          nextId := 1 },
        errorAddingMessage) := by
  decide

/-- C4, refuted at an input: a provider is configured, the remote call is
rejected and the tenant has configured the single default response that is
the generic phrase; the stored reply is that rule-based phrase. -/
theorem C4_configured_rule_phrase_counterexample :
    failingEnv.hasProvider = true ∧
    (postMessage failingEnv (sampleDbWith genericDefaultsText) 7 1
        (.string "hello".toList)).2.data.map (fun d => d.2.content) = some genericPhrase ∧
    genericPhrase ∈ ruleBasedPhrases := by
  decide

/-- C4 as amended: when the `try` block throws (the provider is configured and
the call is rejected, or reading the payload throws) and `Math.random()` lies in
`[0, 1)`, then (a) for a `defaultResponses` that is a non-empty array the reply
is the element of that array at the drawn position, and (b) for a
`defaultResponses` that is absent or falsy the reply is one of the two
built-in phrases, which is none of the rule-based phrases. -/
theorem C4_failed_call_reply (env : Env) (aiSettings : JsValue) (context content : JsString)
    (previousMessages : List Message)
    (hfail : tryResponse env aiSettings context content previousMessages = none)
    (hrand : env.randomNum < env.randomDen) :
    (∀ items : List JsValue, aiSettings.optGet "defaultResponses".toList = .array items →
      items ≠ [] →
      ∃ i, ∃ h : i < items.length,
        aiResponse env aiSettings context content previousMessages = items.get ⟨i, h⟩) ∧
    ((aiSettings.optGet "defaultResponses".toList).truthy = false →
      ∃ p ∈ builtinFallbacks,
        aiResponse env aiSettings context content previousMessages = .string p ∧
        p ∉ ruleBasedPhrases) := by
  have hcatch : aiResponse env aiSettings context content previousMessages =
      catchResponse env aiSettings := by
    simp only [aiResponse, hfail]
  refine ⟨?_, ?_⟩
  · intro items hitems hne
    have hpos : 0 < items.length := List.length_pos.mpr hne
    have hlt := random_draw_lt env hrand hpos
    refine ⟨_, hlt, ?_⟩
    rw [hcatch]
    simp only [catchResponse, fallbacksOf, hitems, JsValue.or, JsValue.truthy, if_true]
    rw [index_array_draw, List.get?_eq_get hlt]
    rfl
  · intro hfalsy
    have hlt := random_draw_lt env hrand (show 0 < (builtinFallbacks.map JsValue.string).length
      by decide)
    have hval : aiResponse env aiSettings context content previousMessages =
        (builtinFallbacks.map JsValue.string).get ⟨_, hlt⟩ := by
      rw [hcatch]
      simp only [catchResponse, fallbacksOf, JsValue.or, hfalsy, Bool.false_eq_true, if_false]
      rw [index_array_draw, List.get?_eq_get hlt]
      rfl
    rw [hval]
    have hlt2 : env.randomNum * (builtinFallbacks.map JsValue.string).length / env.randomDen <
        builtinFallbacks.length := by
      simpa using hlt
    refine ⟨builtinFallbacks.get ⟨_, hlt2⟩, List.get_mem _ _ _, ?_, ?_⟩
    · simp
    · have hall : ∀ p ∈ builtinFallbacks, p ∉ ruleBasedPhrases := by decide
      exact hall _ (List.get_mem _ _ _)

/-- C4, the amended statement at a rejected call with three configured
responses and the draw one half: the reply is one of the three. -/
theorem C4_failed_call_reply_witness :
    tryResponse failingEnv threeDefaults [] "hello".toList [] = none ∧
    failingEnv.randomNum < failingEnv.randomDen ∧
    ∃ i, ∃ h : i < 3,
      aiResponse failingEnv threeDefaults [] "hello".toList [] =
        [JsValue.string "a".toList, .string "b".toList, .string "c".toList].get ⟨i, h⟩ :=
  ⟨rfl, by decide,
    (C4_failed_call_reply failingEnv threeDefaults [] "hello".toList [] rfl (by decide)).1
      _ rfl (by simp)⟩

/-- C5: with no provider configured the reply is the rule-based phrase
selected by content and context: it is the help, thank, question or generic
phrase, it is none of the built-in fallback phrases, and it is the same for
every environment without provider, every AI configuration (so also every
`defaultResponses`) and every history. -/
theorem C5_no_provider_reply_is_rule_based (env env' : Env) (aiSettings aiSettings' : JsValue)
    (previousMessages previousMessages' : List Message) (content context : JsString)
    (hp : env.hasProvider = false) (hp' : env'.hasProvider = false) :
    aiResponse env aiSettings context content previousMessages =
      .string (simpleResponse content context) ∧
    simpleResponse content context ∈
      [helpPhrase, thankPhrase, questionPhrase context, genericPhrase] ∧
    simpleResponse content context ∉ builtinFallbacks ∧
    aiResponse env aiSettings context content previousMessages =
      aiResponse env' aiSettings' context content previousMessages' := by
  refine ⟨aiResponse_noProvider env hp _ _ _ _, simpleResponse_mem content context, ?_, ?_⟩
  · have hall : ∀ p ∈ ruleBasedPhrases, p ∉ builtinFallbacks := by decide
    exact hall _ (simpleResponse_ruleBased content context)
  · rw [aiResponse_noProvider env hp, aiResponse_noProvider env' hp']

/-- C5 at the content "hello": the reply without provider is the generic
phrase whatever the configured default responses. -/
theorem C5_no_provider_reply_is_rule_based_witness :
    aiResponse sampleEnv threeDefaults [] "hello".toList [] =
      .string (simpleResponse "hello".toList []) ∧
    simpleResponse "hello".toList [] ∈
      [helpPhrase, thankPhrase, questionPhrase [], genericPhrase] ∧
    simpleResponse "hello".toList [] ∉ builtinFallbacks ∧
    aiResponse sampleEnv threeDefaults [] "hello".toList [] =
      aiResponse sampleEnv .null [] "hello".toList [] :=
  C5_no_provider_reply_is_rule_based sampleEnv sampleEnv threeDefaults .null [] []
    "hello".toList [] (by decide) (by decide)

/-- C6: with no provider configured the rules apply in the order help, thank,
question, generic.  A content that includes "help" gets the help phrase
whatever else it holds; a content that includes "thank" and not "help" gets
the thank phrase, also when it starts with an interrogative word; a content
that matches none of the three rules gets the generic phrase. -/
theorem C6_rule_precedence (env : Env) (aiSettings : JsValue) (previousMessages : List Message)
    (content context : JsString) (hp : env.hasProvider = false) :
    (includes content "help".toList = true →
      aiResponse env aiSettings context content previousMessages = .string helpPhrase) ∧
    (includes content "help".toList = false → includes content "thank".toList = true →
      aiResponse env aiSettings context content previousMessages = .string thankPhrase) ∧
    (includes content "help".toList = false → includes content "thank".toList = false →
      startsWithQuestion content = false →
      aiResponse env aiSettings context content previousMessages = .string genericPhrase) := by
  rw [aiResponse_noProvider env hp]
  refine ⟨?_, ?_, ?_⟩
  · intro h
    simp only [simpleResponse, h, if_true]
  · intro h1 h2
    simp only [simpleResponse, h1, h2, Bool.false_eq_true, if_false, if_true]
  · intro h1 h2 h3
    simp only [simpleResponse, h1, h2, h3, Bool.false_eq_true, if_false]

/-- C6 at three contents: one that asks for help, thanks and starts with
"can"; one that thanks and starts with "what"; one that matches no rule. -/
theorem C6_rule_precedence_witness :
    aiResponse sampleEnv .null [] "can you help? thank you".toList [] = .string helpPhrase ∧
    aiResponse sampleEnv .null [] "what a day, thank you".toList [] = .string thankPhrase ∧
    aiResponse sampleEnv .null [] "hello".toList [] = .string genericPhrase :=
  ⟨(C6_rule_precedence sampleEnv .null [] "can you help? thank you".toList []
      (by decide)).1 (by decide),
    (C6_rule_precedence sampleEnv .null [] "what a day, thank you".toList []
      (by decide)).2.1 (by decide) (by decide),
    (C6_rule_precedence sampleEnv .null [] "hello".toList []
      (by decide)).2.2 (by decide) (by decide) (by decide)⟩

/-- C7, the failing inputs: "HELP ME" is a re-casing of "help me" and
"Thank you" one of "thank you", but without provider the lower-case contents
get the help and the thank phrase while the re-cased ones get the generic
phrase. -/
theorem C7_recasing_changes_reply :
    toLowerCase "HELP ME".toList = "help me".toList ∧
    toLowerCase "Thank you".toList = "thank you".toList ∧
    (aiResponse sampleEnv .null [] "help me".toList []).asText = some helpPhrase ∧
    (aiResponse sampleEnv .null [] "HELP ME".toList []).asText = some genericPhrase ∧
    (aiResponse sampleEnv .null [] "thank you".toList []).asText = some thankPhrase ∧
    (aiResponse sampleEnv .null [] "Thank you".toList []).asText = some genericPhrase ∧
    helpPhrase ≠ genericPhrase ∧ thankPhrase ≠ genericPhrase := by
  decide

/-- C8: with no provider configured, a content that starts with an
interrogative word and includes neither "help" nor "thank" is answered by the
question opening followed by the insights sentence when the context is not
empty and by the same opening followed by the no-information sentence when the
context is empty, and the two replies differ. -/
theorem C8_question_reply_depends_on_context (env : Env) (aiSettings : JsValue)
    (previousMessages : List Message) (content context : JsString)
    (hp : env.hasProvider = false) (hq : startsWithQuestion content = true)
    (hh : includes content "help".toList = false)
    (ht : includes content "thank".toList = false) (hctx : context ≠ []) :
    aiResponse env aiSettings context content previousMessages =
      .string (questionOpening ++ insightsSentence) ∧
    aiResponse env aiSettings [] content previousMessages =
      .string (questionOpening ++ noInformationSentence) ∧
    aiResponse env aiSettings context content previousMessages ≠
      aiResponse env aiSettings [] content previousMessages := by
  have hne : context.isEmpty = false := by
    cases context with
    | nil => exact absurd rfl hctx
    | cons c cs => rfl
  have h1 : aiResponse env aiSettings context content previousMessages =
      .string (questionOpening ++ insightsSentence) := by
    rw [aiResponse_noProvider env hp]
    simp only [simpleResponse, hh, ht, hq, questionPhrase, hne, Bool.false_eq_true, if_false,
      if_true, Bool.not_false]
  have h2 : aiResponse env aiSettings [] content previousMessages =
      .string (questionOpening ++ noInformationSentence) := by
    rw [aiResponse_noProvider env hp]
    simp only [simpleResponse, hh, ht, hq, questionPhrase, List.isEmpty_nil, Bool.false_eq_true,
      if_false, if_true, Bool.not_true]
  refine ⟨h1, h2, ?_⟩
  rw [h1, h2]
  intro h
  have h' := List.append_cancel_left (JsValue.string.inj h)
  revert h'
  decide

/-- C8 at the content "What is your refund policy?" with the context "FAQ". -/
theorem C8_question_reply_depends_on_context_witness :
    aiResponse sampleEnv .null "FAQ".toList "What is your refund policy?".toList [] =
      .string (questionOpening ++ insightsSentence) ∧
    aiResponse sampleEnv .null [] "What is your refund policy?".toList [] =
      .string (questionOpening ++ noInformationSentence) ∧
    aiResponse sampleEnv .null "FAQ".toList "What is your refund policy?".toList [] ≠
      aiResponse sampleEnv .null [] "What is your refund policy?".toList [] :=
  C8_question_reply_depends_on_context sampleEnv .null [] "What is your refund policy?".toList
    "FAQ".toList (by decide) (by decide) (by decide) (by decide) (by decide)

/-- C9: end to end.  For a conversation of the caller that has no messages,
with the knowledge base disabled in the settings of the tenant, no provider
configured, and a text content that starts with an interrogative word and
includes neither "help" nor "thank", the handler answers 201 with the two
created messages; exactly two messages are appended to the store, both of that
conversation: first the visitor message carrying the content, then the reply
whose content is the question phrase for an empty context; and `updatedAt` of
the conversation becomes the time of the call while the other conversations
keep theirs. -/
theorem C9_end_to_end_question (env : Env) (db : Db) (tenantId id : Nat) (text : JsString)
    (howned : ∃ c ∈ db.conversations, c.id = id ∧ c.tenantId = tenantId)
    (hempty : ∀ m ∈ db.messages, m.conversationId ≠ id)
    (hdisabled : (loadAiSettings env (findWidget db tenantId)).optGet
      "knowledgeBaseEnabled".toList = .bool false)
    (hp : env.hasProvider = false) (hq : startsWithQuestion text = true)
    (hh : includes text "help".toList = false) (ht : includes text "thank".toList = false) :
    (postMessage env db tenantId id (.string text)).2 =
      { status := 201, message := "Messages added successfully".toList,
        data := some (visitorMessage env db id text,
          replyMessage env db id (questionOpening ++ noInformationSentence)) } ∧
    (postMessage env db tenantId id (.string text)).1.messages =
      db.messages ++ [visitorMessage env db id text,
        replyMessage env db id (questionOpening ++ noInformationSentence)] ∧
    ((postMessage env db tenantId id (.string text)).1.messages.filter
        fun m => m.conversationId == id) =
      [visitorMessage env db id text,
        replyMessage env db id (questionOpening ++ noInformationSentence)] ∧
    (postMessage env db tenantId id (.string text)).1.conversations =
      db.conversations.map (fun c => if c.id == id then { c with updatedAt := env.now } else c) ∧
    (∀ c ∈ (postMessage env db tenantId id (.string text)).1.conversations,
      c.id = id → c.updatedAt = env.now) := by
  obtain ⟨c, hc⟩ := findConversation_of_owned db tenantId id howned
  have hctx : handlerContext env db tenantId = [] :=
    buildContext_disabled _ _ hdisabled
  have hreply : simpleResponse text [] = questionOpening ++ noInformationSentence := by
    simp only [simpleResponse, hh, ht, hq, questionPhrase, List.isEmpty_nil, Bool.false_eq_true,
      if_false, if_true, Bool.not_true]
  have hnone : (db.messages.filter fun m => m.conversationId == id) = [] := by
    rw [List.filter_eq_nil_iff]
    intro m hm
    simpa using hempty m hm
  rw [postMessage_noProvider env db tenantId id text c hc hp, hctx, hreply]
  refine ⟨rfl, rfl, ?_, rfl, ?_⟩
  · simp [touchConversation, List.filter_append, hnone, visitorMessage, replyMessage]
  · intro c' hc' hid
    simp only [touchConversation, List.mem_map] at hc'
    obtain ⟨c0, _, h0⟩ := hc'
    by_cases hc0 : c0.id = id
    · simp only [hc0, beq_self_eq_true, if_true] at h0
      rw [← h0]
    · have hb : (c0.id == id) = false := by simpa using hc0
      simp only [hb, Bool.false_eq_true, if_false] at h0
      rw [← h0] at hid
      exact absurd hid hc0

/-- C9 at the content "How do I reset my password?" sent to the empty
conversation 1 of tenant 7, whose settings disable the knowledge base. -/
theorem C9_end_to_end_question_witness :
    ((postMessage sampleEnvParsing (sampleDbWith disabledKnowledgeText) 7 1
        (.string "How do I reset my password?".toList)).1.messages.map fun m => m.content) =
      ["How do I reset my password?".toList, questionOpening ++ noInformationSentence] ∧
    ((postMessage sampleEnvParsing (sampleDbWith disabledKnowledgeText) 7 1
        (.string "How do I reset my password?".toList)).1.conversations.map
          fun c => c.updatedAt) = [sampleEnvParsing.now] :=
  have h := C9_end_to_end_question sampleEnvParsing (sampleDbWith disabledKnowledgeText) 7 1
    "How do I reset my password?".toList (by decide) (by decide) rfl (by decide) (by decide)
    (by decide) (by decide)
  ⟨by rw [h.2.1]; rfl, by rw [h.2.2.2.1]; rfl⟩

/-- C10: the context is empty whenever the settings have `knowledgeBaseEnabled`
equal to `false`, for every list of entries, and whenever there is no entry,
for every settings value.  In the handler: the context of a tenant is empty
when its settings disable the knowledge base and when the tenant has no entry
(whatever its settings text: absent, unparsable or parsed); and the context
is a function of the entries, the widgets and `JSON.parse` alone, so it is
the same in every store and environment that agree on these. -/
theorem C10_context_empty_or_stable (env : Env) (db : Db) (tenantId : Nat)
    (knowledgeEntries : List KnowledgeEntry) (aiSettings : JsValue) :
    (aiSettings.optGet "knowledgeBaseEnabled".toList = .bool false →
      buildContext knowledgeEntries aiSettings = []) ∧
    buildContext [] aiSettings = [] ∧
    ((loadAiSettings env (findWidget db tenantId)).optGet "knowledgeBaseEnabled".toList =
        .bool false → handlerContext env db tenantId = []) ∧
    ((∀ e ∈ db.knowledgeBase, e.tenantId ≠ tenantId) → handlerContext env db tenantId = []) ∧
    (∀ (env' : Env) (db' : Db), db'.knowledgeBase = db.knowledgeBase →
      db'.widgets = db.widgets → env'.jsonParse = env.jsonParse →
      handlerContext env' db' tenantId = handlerContext env db tenantId) := by
  refine ⟨buildContext_disabled _ _, buildContext_nil _, buildContext_disabled _ _, ?_, ?_⟩
  · intro h
    simp only [handlerContext, findKnowledgeEntries_nil db tenantId h, buildContext_nil]
  · intro env' db' hk hw hj
    simp only [handlerContext, findKnowledgeEntries, findWidget, loadAiSettings, hk, hw, hj]

/-- C10 at twenty-five entries with the knowledge base disabled, and at a tenant
without entries. -/
theorem C10_context_empty_or_stable_witness :
    buildContext (List.replicate 25 sampleEntry) disabledKnowledge = [] ∧
    handlerContext sampleEnv sampleDb 7 = [] :=
  ⟨(C10_context_empty_or_stable sampleEnv sampleDb 7 (List.replicate 25 sampleEntry)
      disabledKnowledge).1 rfl,
    (C10_context_empty_or_stable sampleEnv sampleDb 7 [] .null).2.2.2.1 (by decide)⟩

/-- C11: when the settings of the tenant do not disable the knowledge base and
the tenant has at least one entry, the handler uses a non-empty list of at
most 20 entries of the tenant; together with the entries left out (there are
some only when 20 are used) they are the entries of the tenant ordered by
`updatedAt`, newest first, so the used ones are the most recently updated; the
context is the rendering of the first used entry followed, for each further
entry in order, by "\n\n" and its rendering, with nothing before or after; a
Q&A entry with question and answer renders as "Question: <question>\nAnswer:
<answer>" and every other entry with a content as that content. -/
theorem C11_context_rendering (env : Env) (db : Db) (tenantId : Nat)
    (henabled : (loadAiSettings env (findWidget db tenantId)).optGet
      "knowledgeBaseEnabled".toList ≠ .bool false)
    (hentry : ∃ e ∈ db.knowledgeBase, e.tenantId = tenantId) :
    ∃ (first : KnowledgeEntry) (others unused : List KnowledgeEntry),
      findKnowledgeEntries db tenantId = first :: others ∧
      (first :: others).length ≤ 20 ∧
      (unused ≠ [] → (first :: others).length = 20) ∧
      List.Perm (first :: others ++ unused)
        (db.knowledgeBase.filter fun e => e.tenantId == tenantId) ∧
      List.Pairwise (fun a b : KnowledgeEntry => b.updatedAt ≤ a.updatedAt)
        (first :: others ++ unused) ∧
      handlerContext env db tenantId =
        renderedText first ++ (others.map fun e => "\n\n".toList ++ renderedText e).flatten ∧
      (∀ (e : KnowledgeEntry) (q a : JsString), e.type = "qa".toList → e.question = some q →
        e.answer = some a →
        renderedText e = "Question: ".toList ++ q ++ "\nAnswer: ".toList ++ a) ∧
      (∀ (e : KnowledgeEntry) (c : JsString), e.type ≠ "qa".toList → e.content = some c →
        renderedText e = c) := by
  obtain ⟨e0, he0, ht0⟩ := hentry
  have hmem : e0 ∈ db.knowledgeBase.filter fun e => e.tenantId == tenantId := by
    simp [List.mem_filter, he0, ht0]
  have hperm := List.perm_insertionSort (fun a b : KnowledgeEntry => b.updatedAt ≤ a.updatedAt)
    (db.knowledgeBase.filter fun e => e.tenantId == tenantId)
  have hpair := findKnowledgeEntries_pairwise db tenantId
  generalize hsorted : ((db.knowledgeBase.filter fun e => e.tenantId == tenantId).insertionSort
    fun a b => b.updatedAt ≤ a.updatedAt) = sorted at hperm hpair
  have hused : findKnowledgeEntries db tenantId = sorted.take 20 := by
    simp only [findKnowledgeEntries, hsorted]
  have hne : sorted ≠ [] := by
    intro h
    rw [h] at hperm
    have := hperm.symm.subset hmem
    simp at this
  cases htake : sorted.take 20 with
  | nil =>
    cases sorted with
    | nil => exact absurd rfl hne
    | cons a l => simp at htake
  | cons first others =>
    have hsplit : first :: others ++ sorted.drop 20 = sorted := by
      rw [← htake, List.take_append_drop]
    refine ⟨first, others, sorted.drop 20, by rw [hused, htake], ?_, ?_, ?_, ?_, ?_, ?_, ?_⟩
    · rw [← htake, List.length_take]
      exact Nat.min_le_left _ _
    · intro hrest
      rw [← htake, List.length_take]
      have hlen : 20 < sorted.length := by
        by_contra hle
        exact hrest (List.drop_eq_nil_of_le (Nat.le_of_not_lt hle))
      omega
    · rw [hsplit]
      exact hperm
    · rw [hsplit]
      exact hpair
    · simp only [handlerContext, hused, htake, buildContext,
        knowledgeBaseAllowed_of_enabled _ henabled, List.length_cons, gt_iff_lt,
        Nat.zero_lt_succ, decide_True, Bool.and_self, if_true, List.map_cons, join_cons,
        List.map_map, renderedText]
      rfl
    · intro e q a ht hq ha
      simp only [renderedText, renderEntry, ht, hq, ha, beq_self_eq_true, if_true, templateText,
        Option.getD_some, List.append_assoc]
    · intro e c ht hc
      have hb : (e.type == "qa".toList) = false := by simpa using ht
      simp only [renderedText, renderEntry, hb, hc, Bool.false_eq_true, if_false,
        Option.getD_some]

/-- C11 at a tenant with a free-text entry updated at time 3 and a Q&A entry
updated at time 9: the context is the Q&A rendering, a blank line, then the
free text. -/
theorem C11_context_rendering_witness :
    handlerContext sampleEnv sampleDbWithEntries 7 =
      "Question: Do you ship abroad?\nAnswer: Yes.\n\nWe ship worldwide.".toList ∧
    ∃ (first : KnowledgeEntry) (others unused : List KnowledgeEntry),
      findKnowledgeEntries sampleDbWithEntries 7 = first :: others ∧
      (first :: others).length ≤ 20 ∧
      (unused ≠ [] → (first :: others).length = 20) ∧
      List.Perm (first :: others ++ unused)
        (sampleDbWithEntries.knowledgeBase.filter fun e => e.tenantId == 7) ∧
      List.Pairwise (fun a b : KnowledgeEntry => b.updatedAt ≤ a.updatedAt)
        (first :: others ++ unused) ∧
      handlerContext sampleEnv sampleDbWithEntries 7 =
        renderedText first ++ (others.map fun e => "\n\n".toList ++ renderedText e).flatten ∧
      (∀ (e : KnowledgeEntry) (q a : JsString), e.type = "qa".toList → e.question = some q →
        e.answer = some a →
        renderedText e = "Question: ".toList ++ q ++ "\nAnswer: ".toList ++ a) ∧
      (∀ (e : KnowledgeEntry) (c : JsString), e.type ≠ "qa".toList → e.content = some c →
        renderedText e = c) :=
  ⟨by decide,
    C11_context_rendering sampleEnv sampleDbWithEntries 7 (by intro h; cases h)
      ⟨sampleEntry, by decide, by decide⟩⟩

/-- C12, the failing input: conversation 1 holds eleven messages created at
the times 1 to 11 and a new content arrives at time 100.  The history sent to
the model holds the ten oldest stored messages followed by the new content:
the oldest message is in it and the newest stored message, "message 11", is
not. -/
theorem C12_history_holds_oldest_messages :
    (findConversation longConversationDb 1 7).isSome = true ∧
    answeringEnv.hasProvider = true ∧
    (handlerRequest answeringEnv longConversationDb 7 1 "newest".toList).messages.tail =
      handlerHistory answeringEnv longConversationDb 1 "newest".toList ∧
    (handlerHistory answeringEnv longConversationDb 1 "newest".toList).map (fun t => t.content) =
      ["message 1".toList, "message 2".toList, "message 3".toList, "message 4".toList,
       "message 5".toList, "message 6".toList, "message 7".toList, "message 8".toList,
       "message 9".toList, "message 10".toList, "newest".toList] ∧
    "message 11".toList ∈ longConversationDb.messages.map (fun m => m.content) ∧
    "message 11".toList ∉
      (handlerHistory answeringEnv longConversationDb 1 "newest".toList).map
        (fun t => t.content) := by
  decide

/-- C13: a `message:new` event with the tenant `tenantId`, sent by a connected
socket, delivers the message to every connected socket that is in the room of
`tenantId` and to no other: a socket in the room gets exactly this delivery
appended to its log, a socket outside the room is left unchanged, and the
connected sockets stay the same ones. -/
theorem C13_publish_reaches_room_members (server : Server) (socketId tenantId : Nat)
    (message : Message) (hconn : isConnected server socketId = true) :
    (∀ s ∈ server, tenantId ∈ s.rooms →
      { s with received := s.received ++ [{ room := tenantId, emitted := .messageNew message }] }
        ∈ step server (.messageNew socketId tenantId message)) ∧
    (∀ s ∈ server, tenantId ∉ s.rooms →
      s ∈ step server (.messageNew socketId tenantId message)) ∧
    (∀ s' ∈ step server (.messageNew socketId tenantId message), tenantId ∉ s'.rooms →
      s' ∈ server) ∧
    (step server (.messageNew socketId tenantId message)).map (fun s => (s.id, s.rooms)) =
      server.map (fun s => (s.id, s.rooms)) ∧
    (step server (.messageNew socketId tenantId message)).map (fun s => s.received) =
      server.map (fun s =>
        if tenantId ∈ s.rooms then
          s.received ++ [{ room := tenantId, emitted := .messageNew message }]
        else s.received) := by
  simp only [step, hconn, if_true, emitTo]
  refine ⟨?_, ?_, ?_, ?_, ?_⟩
  · intro s hs hroom
    refine List.mem_map.mpr ⟨s, hs, ?_⟩
    have : s.rooms.contains tenantId = true := by simpa using hroom
    simp only [this, if_true]
  · intro s hs hroom
    refine List.mem_map.mpr ⟨s, hs, ?_⟩
    have : s.rooms.contains tenantId = false := by simpa using hroom
    simp only [this, Bool.false_eq_true, if_false]
  · intro s' hs' hroom
    obtain ⟨s, hs, rfl⟩ := List.mem_map.mp hs'
    by_cases hc : s.rooms.contains tenantId = true
    · simp only [hc, if_true] at hroom
      exact absurd (by simpa using hc) hroom
    · simp only [hc, Bool.false_eq_true, if_false]
      exact hs
  · rw [List.map_map]
    apply List.map_congr_left
    intro s _
    simp only [Function.comp]
    split <;> rfl
  · rw [List.map_map]
    apply List.map_congr_left
    intro s _
    simp only [Function.comp]
    by_cases hc : s.rooms.contains tenantId = true
    · have hm : tenantId ∈ s.rooms := by simpa using hc
      simp only [hc, hm, if_true]
    · have hm : tenantId ∉ s.rooms := by simpa using hc
      simp only [hc, hm, Bool.false_eq_true, if_false]

/-- C13 at the server reached by the sample joins: the sample message
published to tenant 20 by socket 2 is appended to the logs of the sockets 1
and 2, both in the room of tenant 20. -/
theorem C13_publish_reaches_room_members_witness :
    (step (run [] sampleEvents.dropLast) (.messageNew 2 20 sampleMessage)).map
        (fun s => s.received) =
      (run [] sampleEvents.dropLast).map (fun s =>
        if 20 ∈ s.rooms then
          s.received ++ [{ room := 20, emitted := .messageNew sampleMessage }]
        else s.received) :=
  (C13_publish_reaches_room_members (run [] sampleEvents.dropLast) 2 20 sampleMessage
    (by decide)).2.2.2.2

/-- C14, refuted at an event sequence: the tenants 10 and 20 differ, socket 1
has joined the room of tenant 10 and then the room of tenant 20, and it
receives the message that socket 2 publishes to tenant 20. -/
theorem C14_joined_two_rooms_counterexample :
    (10 : Nat) ≠ 20 ∧
    ∃ s ∈ run [] sampleEvents, s.id = 1 ∧ 10 ∈ s.rooms ∧
      ({ room := 20, emitted := .messageNew sampleMessage } : Delivery) ∈ s.received := by
  decide

/-- C14 as amended: after every sequence of events from the start of the
server, every message or status update in the log of a connected socket was
published to a room the socket is in, and the socket is in that room because
it has joined it with a `join-tenant` event or because the room bears its own
id.  So a socket that has joined the room of T1 receives nothing published to
T2 unless it has also joined the room of T2 (or T2 is its own id). -/
theorem C14_delivery_only_to_joined_rooms (events : List SocketEvent) (s : Socket)
    (d : Delivery) (hs : s ∈ run [] events) (hd : d ∈ s.received) :
    d.room ∈ s.rooms ∧ (d.room = s.id ∨ SocketEvent.joinTenant s.id d.room ∈ events) := by
  have hinv : FanoutInvariant ([] ++ events) (run [] events) :=
    fanoutInvariant_run events [] [] (fun s hs => by simp at hs)
  have hroom := (hinv s hs).2 d hd
  have hjoin := (hinv s hs).1 d.room hroom
  exact ⟨hroom, by simpa using hjoin⟩

/-- C14, the amended statement at the sample events: the delivery in the log
of socket 1 was published to the room of tenant 20, which socket 1 has
joined. -/
theorem C14_delivery_only_to_joined_rooms_witness :
    (20 : Nat) ∈ [1, 10, 20] ∧
    ((20 : Nat) = 1 ∨ SocketEvent.joinTenant 1 20 ∈ sampleEvents) :=
  C14_delivery_only_to_joined_rooms sampleEvents
    { id := 1, rooms := [1, 10, 20],
      received := [{ room := 20, emitted := .messageNew sampleMessage }] }
    { room := 20, emitted := .messageNew sampleMessage } (by decide) (by decide)

/-- C15, refuted at an input: a message whose stored status is `seen` and a
request with the status `sent`; the route answers 200 and the stored status
becomes `sent`, which is earlier in the order. -/
theorem C15_status_regression_counterexample :
    (patchMessageStatus (sampleDbWithMessage "seen".toList) 7 0 (.string "sent".toList)).2.status
      = 200 ∧
    (sampleDbWithMessage "seen".toList).messages.map (fun m => m.status) = ["seen".toList] ∧
    (patchMessageStatus (sampleDbWithMessage "seen".toList) 7 0
      (.string "sent".toList)).1.messages.map (fun m => m.status) = ["sent".toList] ∧
    statusRank "sent".toList < statusRank "seen".toList := by
  decide

/-- C15 as amended: the route keeps no order between statuses.  For every
stored message and every request that names its id with one of the statuses
`sent`, `delivered`, `seen`, the answer is 200 and the stored status of the
message after the request is the requested one, whatever it was before; every
message with another id keeps its status. -/
theorem C15_status_is_overwritten (db : Db) (tenantId id : Nat) (status : JsString)
    (m : Message) (hvalid : status ∈ validStatuses) (hm : m ∈ db.messages) (hid : m.id = id) :
    (patchMessageStatus db tenantId id (.string status)).2.status = 200 ∧
    { m with status := status } ∈
      (patchMessageStatus db tenantId id (.string status)).1.messages ∧
    (∀ x ∈ (patchMessageStatus db tenantId id (.string status)).1.messages,
      x.id = id → x.status = status) ∧
    (∀ x ∈ db.messages, x.id ≠ id →
      x ∈ (patchMessageStatus db tenantId id (.string status)).1.messages) := by
  obtain ⟨first, _, hpatch⟩ := patchMessageStatus_valid db tenantId id status m hvalid hm hid
  rw [hpatch]
  refine ⟨rfl, ?_, ?_, ?_⟩
  · refine List.mem_map.mpr ⟨m, hm, ?_⟩
    simp only [hid, beq_self_eq_true, if_true]
  · intro x hx hxid
    obtain ⟨x0, _, rfl⟩ := List.mem_map.mp hx
    by_cases h0 : (x0.id == id) = true
    · simp only [h0, if_true]
    · simp only [h0, Bool.false_eq_true, if_false] at hxid
      exact absurd (by simpa using hxid) h0
  · intro x hx hxid
    refine List.mem_map.mpr ⟨x, hx, ?_⟩
    have h0 : (x.id == id) = false := by simpa using hxid
    simp only [h0, Bool.false_eq_true, if_false]

/-- C15, the amended statement at a message stored as `seen` and the request
`sent`. -/
theorem C15_status_is_overwritten_witness :
    (patchMessageStatus (sampleDbWithMessage "seen".toList) 7 0
      (.string "sent".toList)).2.status = 200 ∧
    { sampleMessage with status := "sent".toList } ∈
      (patchMessageStatus (sampleDbWithMessage "seen".toList) 7 0
        (.string "sent".toList)).1.messages :=
  have h := C15_status_is_overwritten (sampleDbWithMessage "seen".toList) 7 0 "sent".toList
    { sampleMessage with status := "seen".toList } (by decide) (by decide) rfl
  ⟨h.1, h.2.1⟩

/-- C16, the failing input: the message 0 belongs to conversation 1, which
belongs to tenant 7, and the caller is of tenant 8.  The route answers 200,
returns the message and stores the new status. -/
theorem C16_foreign_tenant_updates_status :
    (sampleDbWithMessage "sent".toList).conversations.map (fun c => (c.id, c.tenantId)) =
      [(1, 7)] ∧
    (sampleDbWithMessage "sent".toList).messages.map (fun m => (m.id, m.conversationId)) =
      [(0, 1)] ∧
    patchMessageStatus (sampleDbWithMessage "sent".toList) 8 0 (.string "seen".toList) =
      (sampleDbWithMessage "seen".toList,
        { status := 200, message := "Message status updated".toList,
          data := some { sampleMessage with status := "seen".toList } }) := by
  decide

/-- C17, refuted at an input: a provider is configured and the tenant has no
knowledge entry, so the context is empty; the system message of the request
is the preamble followed by the empty string, and nothing else. -/
theorem C17_empty_context_counterexample :
    answeringEnv.hasProvider = true ∧
    handlerContext answeringEnv sampleDb 7 = [] ∧
    (handlerRequest answeringEnv sampleDb 7 1 "hello".toList).messages.head? =
      some { role := "system".toList, content := systemPreamble ++ [] } := by
  decide

/-- C17 as amended: the request starts with one system message, whose content
is the fixed preamble followed by the context, and continues with the
history; the preamble is the same for an empty and for a non-empty context. -/
theorem C17_system_message_is_preamble_then_context (env : Env) (db : Db) (tenantId id : Nat)
    (text : JsString) :
    (handlerRequest env db tenantId id text).messages =
      { role := "system".toList, content := systemPreamble ++ handlerContext env db tenantId } ::
        handlerHistory env db id text := by
  rfl

/-- C18, the failing input: the settings of the tenant configure the
temperature 0 and a provider is configured; the request carries the
temperature 0.7. -/
theorem C18_zero_temperature_replaced :
    zeroTemperatureEnv.hasProvider = true ∧
    ((loadAiSettings zeroTemperatureEnv
      (findWidget (sampleDbWith zeroTemperatureText) 7)).optGet "temperature".toList).asNumber =
      some ⟨0, 1⟩ ∧
    (handlerRequest zeroTemperatureEnv (sampleDbWith zeroTemperatureText) 7 1
      "hello".toList).temperature.asNumber = some ⟨7, 10⟩ := by
  decide

/-- C19: the history starts with one turn per loaded message, in the order of
the loaded messages: the turn at position `i` carries the content of the
message at position `i`, with the role `user` when the sender of the message
is `user` and the role `assistant` otherwise; these turns are as many as the
loaded messages, and one turn for the new content follows them. -/
theorem C19_history_maps_messages (previousMessages : List Message) (content : JsString)
    (i : Nat) (hi : i < previousMessages.length) :
    (conversationHistory previousMessages content).length = previousMessages.length + 1 ∧
    (conversationHistory previousMessages content).dropLast.length = previousMessages.length ∧
    (conversationHistory previousMessages content).dropLast.map (fun t => t.content) =
      previousMessages.map (fun m => m.content) ∧
    ∃ turn, (conversationHistory previousMessages content).get? i = some turn ∧
      turn.content = (previousMessages.get ⟨i, hi⟩).content ∧
      ((previousMessages.get ⟨i, hi⟩).sender = "user".toList → turn.role = "user".toList) ∧
      ((previousMessages.get ⟨i, hi⟩).sender ≠ "user".toList →
        turn.role = "assistant".toList) := by
  refine ⟨by simp [conversationHistory], by simp [conversationHistory],
    by simp [conversationHistory, List.dropLast_concat], ?_⟩
  refine ⟨{ role := if (previousMessages.get ⟨i, hi⟩).sender == "user".toList then "user".toList
                    else "assistant".toList,
            content := (previousMessages.get ⟨i, hi⟩).content }, ?_, rfl, ?_, ?_⟩
  · simp only [conversationHistory]
    rw [List.get?_eq_getElem?, List.getElem?_append_left (by simpa using hi),
      List.getElem?_map, List.getElem?_eq_getElem hi]
    rfl
  · intro hs
    simp only [hs, beq_self_eq_true, if_true]
  · intro hs
    have hb : ((previousMessages.get ⟨i, hi⟩).sender == "user".toList) = false := by
      simpa using hs
    simp only [hb, Bool.false_eq_true, if_false]

/-- C19 at the eleven stored messages: the second one, sent by the bot, is
the second turn, with the role `assistant`. -/
theorem C19_history_maps_messages_witness :
    ∃ turn, (conversationHistory longConversationDb.messages "newest".toList).get? 1 =
        some turn ∧
      turn.content = "message 2".toList ∧ turn.role = "assistant".toList :=
  have h := (C19_history_maps_messages longConversationDb.messages "newest".toList 1
    (by decide)).2.2.2
  h.elim fun turn ht => ⟨turn, ht.1, ht.2.1.trans (by decide), ht.2.2.2 (by decide)⟩

/-- C20: a call answered 201 has a text content and a text reply, and the
store after it is the store before it changed by three writes in this order:
create the visitor message, create the reply message, set `updatedAt` of the
conversation.  The messages after the call are the messages before it
followed by the two new ones, so every message stored before is at its place
and unchanged; the knowledge entries and the widgets are those before the
call, and the conversations with another id are unchanged. -/
theorem C20_success_writes (env : Env) (db : Db) (tenantId id : Nat) (content : JsValue)
    (hsuccess : (postMessage env db tenantId id content).2.status = 201) :
    ∃ text reply : JsString, content = .string text ∧
      (postMessage env db tenantId id content).1 =
        touchConversation
          (createMessage (createMessage db env.now text "user".toList id).1 env.now reply
            "bot".toList id).1 id env.now ∧
      (postMessage env db tenantId id content).1.messages =
        db.messages ++ [visitorMessage env db id text, replyMessage env db id reply] ∧
      (postMessage env db tenantId id content).1.messages.take db.messages.length =
        db.messages ∧
      (postMessage env db tenantId id content).1.knowledgeBase = db.knowledgeBase ∧
      (postMessage env db tenantId id content).1.widgets = db.widgets ∧
      (postMessage env db tenantId id content).1.conversations =
        db.conversations.map (fun c =>
          if c.id == id then { c with updatedAt := env.now } else c) ∧
      (∀ c ∈ db.conversations, c.id ≠ id →
        c ∈ (postMessage env db tenantId id content).1.conversations) := by
  obtain ⟨text, reply, hcontent, hpost⟩ := postMessage_success env db tenantId id content hsuccess
  refine ⟨text, reply, hcontent, ?_⟩
  rw [hpost]
  refine ⟨rfl, ?_, ?_, rfl, rfl, rfl, ?_⟩
  · simp [touchConversation, createMessage, visitorMessage, replyMessage]
  · simp [touchConversation, createMessage]
  · intro c hc hid
    refine List.mem_map.mpr ⟨c, hc, ?_⟩
    have hb : (c.id == id) = false := by simpa using hid
    simp only [hb, Bool.false_eq_true, if_false]

/-- C20 at a call answered by the remote model: the two messages are appended
to the empty message table and the entries and widgets are unchanged. -/
theorem C20_success_writes_witness :
    ∃ text reply : JsString, JsValue.string "hello".toList = .string text ∧
      (postMessage answeringEnv sampleDbWithEntries 7 1 (.string "hello".toList)).1 =
        touchConversation
          (createMessage (createMessage sampleDbWithEntries answeringEnv.now text
            "user".toList 1).1 answeringEnv.now reply "bot".toList 1).1 1 answeringEnv.now ∧
      (postMessage answeringEnv sampleDbWithEntries 7 1 (.string "hello".toList)).1.messages =
        sampleDbWithEntries.messages ++
          [visitorMessage answeringEnv sampleDbWithEntries 1 text,
           replyMessage answeringEnv sampleDbWithEntries 1 reply] ∧
      (postMessage answeringEnv sampleDbWithEntries 7 1
        (.string "hello".toList)).1.knowledgeBase = sampleDbWithEntries.knowledgeBase :=
  have h := C20_success_writes answeringEnv sampleDbWithEntries 7 1 (.string "hello".toList)
    (by decide)
  h.elim fun text ht => ht.elim fun reply hr =>
    ⟨text, reply, hr.1, hr.2.1, hr.2.2.1, hr.2.2.2.2.1⟩

/-- C21: when no knowledge entry with the requested id belongs to the tenant
of the caller (there is none with that id, or it belongs to another tenant),
the update and the delete route answer 404 with the message "Knowledge base
entry not found" and return the store unchanged, whatever the body. -/
theorem C21_foreign_entry_not_found (db : Db) (now tenantId id : Nat) (body : EntryBody)
    (h : ∀ e ∈ db.knowledgeBase, e.id = id → e.tenantId ≠ tenantId) :
    putKnowledgeEntry db now tenantId id body =
      (db, { status := 404, message := "Knowledge base entry not found".toList,
             data := none }) ∧
    deleteKnowledgeEntry db tenantId id =
      (db, { status := 404, message := "Knowledge base entry not found".toList,
             data := none }) := by
  simp only [putKnowledgeEntry, deleteKnowledgeEntry, findEntry_of_not_owned db tenantId id h,
    and_self]

/-- C21 at the entry 1 of tenant 7, requested by tenant 8. -/
theorem C21_foreign_entry_not_found_witness :
    putKnowledgeEntry sampleDbWithEntries 100 8 1 qaBody =
      (sampleDbWithEntries,
        { status := 404, message := "Knowledge base entry not found".toList, data := none }) ∧
    deleteKnowledgeEntry sampleDbWithEntries 8 1 =
      (sampleDbWithEntries,
        { status := 404, message := "Knowledge base entry not found".toList, data := none }) :=
  C21_foreign_entry_not_found sampleDbWithEntries 100 8 1 qaBody (by decide)

/-- C22, the failing input: tenant 7 has a widget and the request carries
neither an `Authorization` header nor a token cookie.  The handler of the
public route would answer 200 with the four fields of the widget, but the
router runs `protect` first and the request is answered 401. -/
theorem C22_public_route_requires_token :
    (getPublicWidget (sampleDbWith disabledKnowledgeText) 7).status = 200 ∧
    (getPublicWidget (sampleDbWith disabledKnowledgeText) 7).data =
      some { color := "#3B82F6".toList, position := "right".toList,
             welcomeText := "Hello!".toList, logoUrl := none } ∧
    widgetRouterPublic sampleAuth [sampleUser] (sampleDbWith disabledKnowledgeText)
        anonymousRequest 7 =
      { status := 401,
        message := some "You are not logged in. Please log in to get access.".toList,
        data := none } := by
  decide

/-- C24, the failing inputs: the entry 1 of tenant 7 is a well-formed text
entry.  An update that carries a new content and no type is answered 200 and
leaves the entry with the type `text` and no content; an update that changes
the type to `qa` without question and answer is answered 200 and leaves it
with the type `qa` and neither question nor answer.  Neither stored entry is
well-formed. -/
theorem C24_update_breaks_variant :
    sampleEntry.wellFormed = true ∧
    (putKnowledgeEntry sampleDbWithEntries 100 7 1 contentOnlyBody).2 =
      { status := 200, message := "Knowledge base entry updated successfully".toList,
        data := some { sampleEntry with content := none, updatedAt := 100 } } ∧
    ((putKnowledgeEntry sampleDbWithEntries 100 7 1 contentOnlyBody).1.knowledgeBase.map
      fun e => e.wellFormed) = [false, true] ∧
    (putKnowledgeEntry sampleDbWithEntries 100 7 1 typeOnlyBody).2 =
      { status := 200, message := "Knowledge base entry updated successfully".toList,
        data := some { sampleEntry with type := "qa".toList, content := none,
                                        updatedAt := 100 } } ∧
    ((putKnowledgeEntry sampleDbWithEntries 100 7 1 typeOnlyBody).1.knowledgeBase.map
      fun e => e.wellFormed) = [false, true] := by
  decide

/-- C25, the failing inputs: in the empty conversation 1 the content "hello"
is stored, loaded again among the previous messages and then pushed, so the
history holds it twice; in the conversation with eleven stored messages the
history has eleven turns. -/
theorem C25_new_content_twice_in_history :
    (handlerHistory answeringEnv sampleDb 1 "hello".toList).map (fun t => t.content) =
      ["hello".toList, "hello".toList] ∧
    ((handlerHistory answeringEnv sampleDb 1 "hello".toList).filter
      fun t => t.content == "hello".toList).length = 2 ∧
    (handlerRequest answeringEnv sampleDb 7 1 "hello".toList).messages.tail =
      handlerHistory answeringEnv sampleDb 1 "hello".toList ∧
    (handlerHistory answeringEnv longConversationDb 1 "newest".toList).length = 11 := by
  decide

/-- C23: for a body whose question, answer and content are texts or missing,
the creation is answered 400 exactly when the type is missing or not one of
`text` and `qa`, or the type is `qa` and question or answer is missing or
empty, or the type is `text` and content is missing or empty, and then the
store is unchanged; every other request is answered 201 and appends exactly
one entry, of the tenant of the caller, that carries the fields of its own
variant and null in the fields of the other variant. -/
theorem C23_create_validation (db : Db) (now tenantId : Nat) (body : EntryBody)
    (hq : isTextOrMissing body.question = true) (ha : isTextOrMissing body.answer = true)
    (hc : isTextOrMissing body.content = true) :
    ((postKnowledgeEntry db now tenantId body).2.status = 400 ↔ entryRejected body = true) ∧
    (entryRejected body = true → (postKnowledgeEntry db now tenantId body).1 = db) ∧
    (entryRejected body = false →
      ∃ e : KnowledgeEntry,
        postKnowledgeEntry db now tenantId body =
          ({ db with knowledgeBase := db.knowledgeBase ++ [e], nextId := db.nextId + 1 },
            { status := 201, message := "Knowledge base entry created successfully".toList,
              data := some e }) ∧
        e.tenantId = tenantId ∧ body.type = .string e.type ∧
        (isText body.type = true →
          body.content = .string (e.content.getD []) ∧ e.content.isSome = true ∧
          e.question = none ∧ e.answer = none) ∧
        (isQa body.type = true →
          body.question = .string (e.question.getD []) ∧ e.question.isSome = true ∧
          body.answer = .string (e.answer.getD []) ∧ e.answer.isSome = true ∧
          e.content = none)) := by
  obtain ⟨type, question, answer, content⟩ := body
  simp only at hq ha hc
  have tq := truthy_of_isTextOrMissing hq
  have ta := truthy_of_isTextOrMissing ha
  have tc := truthy_of_isTextOrMissing hc
  by_cases htype : isEntryType type = true
  · have hkind : ∃ s, type = .string s ∧
        ((isQa (.string s) = false ∧ isText (.string s) = true) ∨
         (isQa (.string s) = true ∧ isText (.string s) = false)) ∧
        (JsValue.string s).truthy = true := by
      rcases isEntryType_cases htype with h | h
      · exact ⟨_, h, Or.inl ⟨by decide, by decide⟩, by decide⟩
      · exact ⟨_, h, Or.inr ⟨by decide, by decide⟩, by decide⟩
    obtain ⟨s, hs, hkind, e4⟩ := hkind
    subst hs
    rcases hkind with ⟨e2, e3⟩ | ⟨e2, e3⟩
    · cases hm : missingOrEmpty content with
      | true =>
        simp [postKnowledgeEntry, entryRejected, htype, e2, e3, e4, tc, hm]
      | false =>
        obtain ⟨c, hc', _⟩ := columnValue_of_text hc hm
        subst hc'
        simp [postKnowledgeEntry, entryRejected, htype, e2, e3, e4, tc, hm, columnValue]
    · cases hmq : missingOrEmpty question with
      | true =>
        simp [postKnowledgeEntry, entryRejected, htype, e2, e3, e4, tq, ta, hmq]
      | false =>
        cases hma : missingOrEmpty answer with
        | true =>
          simp [postKnowledgeEntry, entryRejected, htype, e2, e3, e4, tq, ta, hmq, hma]
        | false =>
          obtain ⟨q, hq', _⟩ := columnValue_of_text hq hmq
          obtain ⟨a, ha', _⟩ := columnValue_of_text ha hma
          subst hq' ha'
          simp [postKnowledgeEntry, entryRejected, htype, e2, e3, e4, tq, ta, hmq, hma,
            columnValue]
  · have hfalse : isEntryType type = false := by simpa using htype
    simp [postKnowledgeEntry, entryRejected, hfalse]

/-- C23 at a Q&A body with question and answer, and at a body without type. -/
theorem C23_create_validation_witness :
    (∃ e : KnowledgeEntry,
      postKnowledgeEntry sampleDb 100 7 qaBody =
        ({ sampleDb with knowledgeBase := sampleDb.knowledgeBase ++ [e],
                         nextId := sampleDb.nextId + 1 },
          { status := 201, message := "Knowledge base entry created successfully".toList,
            data := some e }) ∧
      e.tenantId = 7 ∧ e.content = none) ∧
    (postKnowledgeEntry sampleDb 100 7 contentOnlyBody).2.status = 400 ∧
    (postKnowledgeEntry sampleDb 100 7 contentOnlyBody).1 = sampleDb :=
  have h1 := (C23_create_validation sampleDb 100 7 qaBody rfl rfl rfl).2.2 (by decide)
  have h2 := C23_create_validation sampleDb 100 7 contentOnlyBody rfl rfl rfl
  ⟨h1.elim fun e he => ⟨e, he.1, he.2.1, (he.2.2.2.2 (by decide)).2.2.2.2⟩,
    h2.1.mpr (by decide), h2.2.1 (by decide)⟩

/-- C26: a status that is not one of the strings `sent`, `delivered`, `seen`
is answered 400 with the message "Invalid status. Must be sent, delivered, or
seen." and the store is returned unchanged; for a status of the set, the
messages after the request are the messages before it, in the same order,
where each message with the given id has the requested status and all its
other fields as before and every other message is unchanged, and the other
tables are unchanged. -/
theorem C26_status_update_frame (db : Db) (tenantId id : Nat) (status : JsValue) :
    ((∀ s ∈ validStatuses, status ≠ .string s) →
      patchMessageStatus db tenantId id status =
        (db, { status := 400,
               message := "Invalid status. Must be sent, delivered, or seen.".toList,
               data := none })) ∧
    (∀ s ∈ validStatuses, status = .string s →
      (patchMessageStatus db tenantId id status).1.messages =
        db.messages.map (fun m => if m.id = id then { m with status := s } else m) ∧
      (patchMessageStatus db tenantId id status).1.conversations = db.conversations ∧
      (patchMessageStatus db tenantId id status).1.knowledgeBase = db.knowledgeBase ∧
      (patchMessageStatus db tenantId id status).1.widgets = db.widgets ∧
      (∀ m ∈ db.messages, m.id ≠ id →
        m ∈ (patchMessageStatus db tenantId id status).1.messages)) := by
  refine ⟨?_, ?_⟩
  · intro hinvalid
    cases status with
    | string s =>
      have hc : validStatuses.contains s = false := by
        cases h : validStatuses.contains s with
        | false => rfl
        | true => exact absurd rfl (hinvalid s (by simpa using h))
      simp only [patchMessageStatus, hc, Bool.false_eq_true, if_false]
    | _ => rfl
  · intro s hs hstatus
    subst hstatus
    have hc : validStatuses.contains s = true := by simpa using hs
    have hmap : (db.messages.map fun x => if x.id == id then { x with status := s } else x) =
        db.messages.map (fun m => if m.id = id then { m with status := s } else m) := by
      apply List.map_congr_left
      intro m _
      by_cases h : m.id = id <;> simp [h]
    cases hf : db.messages.find? (fun m => m.id == id) with
    | none =>
      have hnone : ∀ m ∈ db.messages, ¬ m.id = id := by
        intro m hm
        have := (List.find?_eq_none.mp hf) m hm
        simpa using this
      have hid : db.messages.map (fun m => if m.id = id then { m with status := s } else m) =
          db.messages := by
        conv_rhs => rw [← List.map_id db.messages]
        apply List.map_congr_left
        intro m hm
        simp [hnone m hm]
      simp only [patchMessageStatus, hc, if_true, updateMessageStatus, hf, hid]
      exact ⟨trivial, trivial, trivial, trivial, fun m hm _ => hm⟩
    | some first =>
      simp only [patchMessageStatus, hc, if_true, updateMessageStatus, hf, hmap]
      refine ⟨trivial, trivial, trivial, trivial, ?_⟩
      intro m hm hne
      exact List.mem_map.mpr ⟨m, hm, by simp [hne]⟩

/-- C26 at the status "archived", which is rejected, and at the status
"delivered" for the stored message 0. -/
theorem C26_status_update_frame_witness :
    patchMessageStatus (sampleDbWithMessage "sent".toList) 7 0 (.string "archived".toList) =
      (sampleDbWithMessage "sent".toList,
        { status := 400,
          message := "Invalid status. Must be sent, delivered, or seen.".toList,
          data := none }) ∧
    (patchMessageStatus (sampleDbWithMessage "sent".toList) 7 0
        (.string "delivered".toList)).1.messages =
      (sampleDbWithMessage "sent".toList).messages.map
        (fun m => if m.id = 0 then { m with status := "delivered".toList } else m) :=
  ⟨(C26_status_update_frame (sampleDbWithMessage "sent".toList) 7 0
      (.string "archived".toList)).1
        (fun s hs h => absurd (JsValue.string.inj h ▸ hs) (by decide)),
    ((C26_status_update_frame (sampleDbWithMessage "sent".toList) 7 0
      (.string "delivered".toList)).2 "delivered".toList (by decide) rfl).1⟩

/-- C27: the question test holds exactly when the lower-cased content is one
of the ten interrogative words followed by any text, with no word boundary
required.  With no provider configured, a content that includes neither
"help" nor "thank" gets the question phrase when the test holds and the
generic phrase, which is another text, when it does not; a content that starts
with a white-space character never passes the test. -/
theorem C27_question_rule_ignores_word_boundary (env : Env) (aiSettings : JsValue)
    (previousMessages : List Message) (content context : JsString)
    (hp : env.hasProvider = false) (hh : includes content "help".toList = false)
    (ht : includes content "thank".toList = false) :
    (startsWithQuestion content = true ↔
      ∃ q ∈ questions, ∃ rest, toLowerCase content = q ++ rest) ∧
    (startsWithQuestion content = true →
      aiResponse env aiSettings context content previousMessages =
        .string (questionPhrase context)) ∧
    (startsWithQuestion content = false →
      aiResponse env aiSettings context content previousMessages = .string genericPhrase) ∧
    questionPhrase context ≠ genericPhrase ∧
    (∀ (c : Char) (rest : JsString), content = c :: rest → isWhiteSpace c = true →
      startsWithQuestion content = false) := by
  refine ⟨startsWithQuestion_iff content, ?_, ?_, ?_, ?_⟩
  · intro hq
    rw [aiResponse_noProvider env hp]
    simp only [simpleResponse, hh, ht, hq, Bool.false_eq_true, if_false, if_true]
  · intro hq
    rw [aiResponse_noProvider env hp]
    simp only [simpleResponse, hh, ht, hq, Bool.false_eq_true, if_false]
  · have hall : ∀ p ∈ [questionOpening ++ insightsSentence,
        questionOpening ++ noInformationSentence], p ≠ genericPhrase := by decide
    apply hall
    unfold questionPhrase
    cases context <;> simp
  · intro c rest hcontent hc
    rw [hcontent]
    exact startsWithQuestion_of_leading_space c rest hc

/-- C27 at the contents "Canada is cold" and "whatever", which get the
question phrase, and " what is this", which gets the generic phrase. -/
theorem C27_question_rule_ignores_word_boundary_witness :
    aiResponse sampleEnv .null [] "Canada is cold".toList [] = .string (questionPhrase []) ∧
    aiResponse sampleEnv .null [] "whatever".toList [] = .string (questionPhrase []) ∧
    aiResponse sampleEnv .null [] " what is this".toList [] = .string genericPhrase :=
  ⟨(C27_question_rule_ignores_word_boundary sampleEnv .null [] "Canada is cold".toList []
      (by decide) (by decide) (by decide)).2.1 (by decide),
    (C27_question_rule_ignores_word_boundary sampleEnv .null [] "whatever".toList []
      (by decide) (by decide) (by decide)).2.1 (by decide),
    (C27_question_rule_ignores_word_boundary sampleEnv .null [] " what is this".toList []
      (by decide) (by decide) (by decide)).2.2.1 (by decide)⟩

/-- C28: when the `Authorization` header starts with "Bearer", the token is the
second of the pieces of the header separated by a space and the cookie is not
consulted, so the outcome of `protect` is the same for every cookie; when the
header is absent or does not start with "Bearer", the token is the token
cookie, if it is not empty; when no token results (it is undefined or empty),
the answer is 401 "You are not logged in. Please log in to get access." and
`next` is not called; and a header equal to "Bearer" gives that answer
whatever the cookie. -/
theorem C28_protect_token_source (auth : AuthEnv) (users : List User) (req : AuthRequest) :
    (∀ header, req.authorization = some header → startsWith header "Bearer".toList = true →
      extractToken req = (splitOn header ' ').get? 1 ∧
      ∀ cookie, protect auth users { req with cookieToken := cookie } =
        protect auth users req) ∧
    ((req.authorization = none ∨
        ∃ header, req.authorization = some header ∧
          startsWith header "Bearer".toList = false) →
      extractToken req = req.cookieToken.filter (fun token => !token.isEmpty)) ∧
    ((extractToken req = none ∨ extractToken req = some []) →
      protect auth users req =
        .rejected 401 "You are not logged in. Please log in to get access.".toList) ∧
    (req.authorization = some "Bearer".toList →
      protect auth users req =
        .rejected 401 "You are not logged in. Please log in to get access.".toList) := by
  obtain ⟨authorization, cookieToken⟩ := req
  refine ⟨?_, ?_, ?_, ?_⟩
  · intro header hheader hstarts
    simp only at hheader
    subst hheader
    have hne : header.isEmpty = false := by
      cases header with
      | nil => simp [startsWith] at hstarts
      | cons c cs => rfl
    have htoken : ∀ cookie, extractToken { authorization := some header, cookieToken := cookie } =
        (splitOn header ' ').get? 1 := by
      intro cookie
      simp only [extractToken, hne, hstarts, Bool.not_false, Bool.and_self, if_true]
    refine ⟨htoken _, ?_⟩
    intro cookie
    simp only [protect, htoken]
  · intro h
    rcases h with h | ⟨header, hheader, hstarts⟩
    · simp only at h
      subst h
      cases cookieToken with
      | none => rfl
      | some token => simp [extractToken, Option.filter]
    · simp only at hheader
      subst hheader
      simp only [extractToken, hstarts, Bool.and_false, Bool.false_eq_true, if_false]
      cases cookieToken with
      | none => rfl
      | some token => simp [Option.filter]
  · intro h
    rcases h with h | h <;> simp [protect, h]
  · intro h
    simp only at h
    subst h
    have htoken : extractToken
        { authorization := some "Bearer".toList, cookieToken := cookieToken } = none := by
      have h1 : ("Bearer".toList).isEmpty = false := by decide
      have h2 : startsWith "Bearer".toList "Bearer".toList = true := by decide
      have h3 : (splitOn "Bearer".toList ' ').get? 1 = none := by decide
      simp only [extractToken, h1, h2, Bool.not_false, Bool.and_self, if_true, h3]
    simp only [protect, htoken]

/-- C28 at the header "Bearer abc" with a valid token cookie, where the token
is "abc", and at the header "Bearer" with a valid token cookie, which is
answered 401. -/
theorem C28_protect_token_source_witness :
    extractToken { authorization := some "Bearer abc".toList,
                   cookieToken := some "valid-token".toList } = some "abc".toList ∧
    protect sampleAuth [sampleUser]
        { authorization := some "Bearer".toList, cookieToken := some "valid-token".toList } =
      .rejected 401 "You are not logged in. Please log in to get access.".toList ∧
    protect sampleAuth [sampleUser]
        { authorization := none, cookieToken := some "valid-token".toList } =
      .next sampleUser :=
  ⟨((C28_protect_token_source sampleAuth [sampleUser]
        { authorization := some "Bearer abc".toList,
          cookieToken := some "valid-token".toList }).1 "Bearer abc".toList rfl
        (by decide)).1.trans (by decide),
    (C28_protect_token_source sampleAuth [sampleUser]
        { authorization := some "Bearer".toList,
          cookieToken := some "valid-token".toList }).2.2.2 rfl,
    by decide⟩

/-- C29: for a body whose colour, position, welcome text and logo are falsy
or texts, and a `JSON.parse` that reads back what `JSON.stringify` writes for
the submitted settings: when the tenant has no widget the update answers 404
and returns the store unchanged; when it has one, the widget of the tenant
gets, for each of the five fields, the value of the body when that value is
truthy (the settings serialised) and keeps its own otherwise, the widgets of
the other tenants and the other tables are unchanged, and when settings are
submitted the answer is 200 with the updated fields and the settings parsed
back, equal to the submitted ones. -/
theorem C29_widget_update_frame (stringify : JsValue → JsString)
    (parse : JsString → Option JsValue) (db : Db) (tenantId : Nat) (body : WidgetBody)
    (hcolor : isTextOrFalsy body.color = true) (hposition : isTextOrFalsy body.position = true)
    (hwelcome : isTextOrFalsy body.welcomeText = true)
    (hlogo : isTextOrFalsy body.logoUrl = true)
    (hround : body.aiSettings.truthy = true →
      stringify body.aiSettings ≠ [] ∧
        parse (stringify body.aiSettings) = some body.aiSettings) :
    (findWidget db tenantId = none →
      putWidget stringify parse db tenantId body =
        (db, { status := 404, message := "Widget configuration not found".toList,
               data := none })) ∧
    (∀ widget, findWidget db tenantId = some widget →
      (putWidget stringify parse db tenantId body).1 =
        { db with widgets := db.widgets.map fun w =>
            if w.tenantId == tenantId then expectedWidget stringify body w else w } ∧
      (body.aiSettings.truthy = true →
        (putWidget stringify parse db tenantId body).2 =
          { status := 200, message := "Widget configuration updated successfully".toList,
            data := some
              { tenantId := widget.tenantId
                color := (expectedWidget stringify body widget).color
                position := (expectedWidget stringify body widget).position
                welcomeText := (expectedWidget stringify body widget).welcomeText
                logoUrl := (expectedWidget stringify body widget).logoUrl
                aiSettings := body.aiSettings } })) := by
  obtain ⟨data, hdata, happly⟩ :=
    applyWidgetData_expected stringify body hcolor hposition hwelcome hlogo
  refine ⟨?_, ?_⟩
  · intro hnone
    simp only [putWidget, hnone]
  · intro widget hw
    have hstore : (putWidget stringify parse db tenantId body).1 =
        { db with widgets := db.widgets.map fun w =>
            if w.tenantId == tenantId then expectedWidget stringify body w else w } := by
      simp only [putWidget, hw, hdata, happly]
      split <;> rfl
    refine ⟨hstore, ?_⟩
    intro htruthy
    obtain ⟨hne, hparse⟩ := hround htruthy
    have hstored : (expectedWidget stringify body widget).aiSettings =
        some (stringify body.aiSettings) := by
      simp only [expectedWidget, htruthy, if_true]
    have hempty : (stringify body.aiSettings).isEmpty = false := by
      cases h : stringify body.aiSettings with
      | nil => exact absurd h hne
      | cons c cs => rfl
    simp only [putWidget, hw, hdata, happly, hstored, Option.getD_some, hempty, Bool.not_false,
      if_true, hparse]
    rfl

/-- C29 at an update of tenant 7 that sets the colour and the settings, with
an empty welcome text and a null logo in the body, which are left as stored. -/
theorem C29_widget_update_frame_witness :
    ((putWidget sampleStringify sampleParse (sampleDbWith emptyDefaultsText) 7
        colorAndSettingsBody).1.widgets.map
      fun w => (w.color, w.position, w.welcomeText, w.logoUrl, w.aiSettings)) =
      [("#FF0000".toList, "right".toList, "Hello!".toList, none,
        some disabledKnowledgeText)] ∧
    (putWidget sampleStringify sampleParse (sampleDbWith emptyDefaultsText) 7
        colorAndSettingsBody).2.status = 200 ∧
    putWidget sampleStringify sampleParse sampleDb 7 colorAndSettingsBody =
      (sampleDb, { status := 404, message := "Widget configuration not found".toList,
                   data := none }) :=
  have h := C29_widget_update_frame sampleStringify sampleParse (sampleDbWith emptyDefaultsText)
    7 colorAndSettingsBody rfl rfl rfl rfl (fun _ => ⟨by decide, rfl⟩)
  have h' := C29_widget_update_frame sampleStringify sampleParse sampleDb
    7 colorAndSettingsBody rfl rfl rfl rfl (fun _ => ⟨by decide, rfl⟩)
  ⟨by rw [(h.2 _ rfl).1]; rfl, by rw [(h.2 _ rfl).2 rfl], h'.1 rfl⟩

/-- C30, the failing input: two login requests that carry an email and no
password.  The email "nobody@example.com" is not registered and the request
is answered 401 "Invalid email or password"; the email "owner@example.com" is
registered, `bcrypt.compare` throws on the missing password and the request
is answered 500 "Error during login".  The two answers differ, so the answer
tells whether the email is registered. -/
theorem C30_missing_password_reveals_registration :
    findUserByEmail [sampleUser] "nobody@example.com".toList = none ∧
    findUserByEmail [sampleUser] "owner@example.com".toList = some sampleUser ∧
    login sampleAuth [sampleUser] (.string "nobody@example.com".toList) .undefined =
      { status := 401, message := "Invalid email or password".toList, token := none,
        cookie := none, user := none } ∧
    login sampleAuth [sampleUser] (.string "owner@example.com".toList) .undefined =
      { status := 500, message := "Error during login".toList, token := none,
        cookie := none, user := none } ∧
    login sampleAuth [sampleUser] (.string "nobody@example.com".toList) .undefined ≠
      login sampleAuth [sampleUser] (.string "owner@example.com".toList) .undefined := by
  decide

end Chatlyb
